import Mathlib

/-!
Verification development for the plant-life simulation core
(`src/js/gameState.js`, current version, together with the static tables of
`src/js/data.js`).

Modelling conventions.
* JS numbers are modelled as exact rationals (`ℚ`).
* Calls to `Math.random()`, `Math.sin`, `Math.cos`, `Math.exp` and the
  constant `Math.PI` are modelled through an explicit oracle structure
  `Ticket`: one `Ticket` carries the transcendental functions and the random
  draws consumed by a single call of `simulateTick` (each call site has its
  own named draw field).  All theorems quantify over the oracle, so they hold
  in particular for the true transcendental functions.
* `data.js` supplies every optional configuration field of every seed and
  biome, so the JS `?? default` fallbacks on configuration reads are modelled
  as plain structure fields.
* `candidate.length || 14` style reads (JS falsy-default) are modelled by
  `jsOr`, which treats `none` and `some 0` as absent, exactly as JS does.
-/

namespace PlantLife

/-- JS helper `clamp(v, lo, hi) = Math.max(lo, Math.min(hi, v))`. -/
def clamp (v lo hi : ℚ) : ℚ := max lo (min hi v)

/-- JS helper `lerp(a, b, t) = a + (b - a) * t`. -/
def lerp (a b t : ℚ) : ℚ := a + (b - a) * t

/-- `Math.round` (round half up, as in JS for the values this code feeds it). -/
def jsRound (x : ℚ) : ℤ := ⌊x + 1/2⌋

/-- JS `v || d` for an optional numeric field: `none` and `0` fall back to `d`. -/
def jsOr (v : Option ℚ) (d : ℚ) : ℚ :=
  match v with
  | none => d
  | some x => if x = 0 then d else x

/-- `vary(val, delta)` from gameState.js, with the `Math.random()` draw `r`
made explicit. -/
def vary (r val delta : ℚ) : ℚ := val + (r - 0.5) * delta * 2

/-- Resource cap from data.js (`RESOURCE_MAX`). -/
def RESOURCE_MAX : ℚ := 100

-- ── Enumerations ──────────────────────────────────────────

/-- The player action strings of gameState.js. -/
inductive Action
  | roots
  | trunk
  | branches
  | leaves
deriving DecidableEq, Repr

/-- The three root-type strategy keys of data.js `ROOT_TYPES`. -/
inductive RootKind
  | surface
  | taproot
  | structural
deriving DecidableEq, Repr

/-- Node type tags of the plant node graph (`'trunk' | 'leaf'`). -/
inductive NodeType
  | trunk
  | leaf
deriving DecidableEq, Repr

/-- Seed lifespans (`'annual' | 'perennial'`). -/
inductive Lifespan
  | annual
  | perennial
deriving DecidableEq, Repr

/-- Stomatal types (`'normal' | 'cam'`). -/
inductive StomatalType
  | normal
  | cam
deriving DecidableEq, Repr

/-- Weather event tags (`'drought' | 'flood' | 'storm'`). -/
inductive Weather
  | drought
  | flood
  | storm
deriving DecidableEq, Repr

/-- The weather tag as logged by `updateWeatherEvents`. -/
def weatherName : Weather → String
  | .drought => "drought"
  | .flood => "flood"
  | .storm => "storm"

-- ── Static configuration (data.js) ────────────────────────

/-- An `npk` / `npkNeed` record. -/
structure NPK where
  n : ℚ
  p : ℚ
  k : ℚ
deriving DecidableEq, Repr

/-- A biome entry of data.js (the fields the simulation core reads). -/
structure Biome where
  sunlight : ℚ
  rainfall : ℚ
  groundwaterDepth : ℚ
  soilNutrients : ℚ
  npk : NPK
  tempLo : ℚ
  tempHi : ℚ
  wind : ℚ
  fungalNetwork : ℚ
deriving DecidableEq, Repr

/-- A seed entry of data.js (the fields the simulation core reads). -/
structure Seed where
  icon : String
  lifespan : Lifespan
  deciduous : Bool
  growthRate : ℚ
  startEnergy : ℚ
  startWater : ℚ
  startNutrients : ℚ
  npkNeed : NPK
  trunkStrength : ℚ
  rootEfficiency : ℚ
  leafEfficiency : ℚ
  waterNeed : ℚ
  stomatalType : StomatalType
  tempOptimum : ℚ
  cavitationResistance : ℚ
  floweringSeason : ℤ
  pollinatorAttraction : ℚ
  cambiumRate : ℚ
  mycorrhizalAffinity : ℚ
  herbivorySusceptibility : ℚ
  defenseStrength : ℚ
deriving DecidableEq, Repr

/-- One entry of data.js `ROOT_TYPES`. -/
structure RootTypeParams where
  waterBonus : ℚ
  nutrientBonus : ℚ
  structuralBonus : ℚ
deriving DecidableEq, Repr

/-- data.js `ROOT_TYPES` table. -/
def ROOT_TYPES : RootKind → RootTypeParams
  | .taproot => { waterBonus := 1.8, nutrientBonus := 0.6, structuralBonus := 0.5 }
  | .structural => { waterBonus := 0.5, nutrientBonus := 0.7, structuralBonus := 2.0 }
  | .surface => { waterBonus := 1.2, nutrientBonus := 1.4, structuralBonus := 0.8 }

/-- The biology feature flags of data.js `DEFAULT_SETTINGS`. -/
structure Settings where
  stomatalRegulation : Bool
  npkNutrients : Bool
  hydraulicFailure : Bool
  tempOptima : Bool
  flowering : Bool
  lifeCycles : Bool
  cambiumGrowth : Bool
  mycorrhizae : Bool
  herbivory : Bool
  weatherEvents : Bool
deriving DecidableEq, Repr

/-- data.js `DEFAULT_SETTINGS`: every flag on. -/
def DEFAULT_SETTINGS : Settings :=
  { stomatalRegulation := true, npkNutrients := true, hydraulicFailure := true,
    tempOptima := true, flowering := true, lifeCycles := true,
    cambiumGrowth := true, mycorrhizae := true, herbivory := true,
    weatherEvents := true }

/-- data.js `BIOMES.plains`. -/
def plains : Biome :=
  { sunlight := 0.80, rainfall := 0.55, groundwaterDepth := 2,
    soilNutrients := 0.55, npk := { n := 0.55, p := 0.50, k := 0.60 },
    tempLo := 5, tempHi := 30, wind := 0.3, fungalNetwork := 0.45 }

/-- data.js `SEEDS.oak`. -/
def oak : Seed :=
  { icon := "🌰", lifespan := .perennial, deciduous := true,
    growthRate := 0.6, startEnergy := 60, startWater := 50, startNutrients := 40,
    npkNeed := { n := 0.8, p := 1.0, k := 0.9 },
    trunkStrength := 1.4, rootEfficiency := 1.0, leafEfficiency := 1.1,
    waterNeed := 1.0, stomatalType := .normal, tempOptimum := 20,
    cavitationResistance := 0.45, floweringSeason := -1,
    pollinatorAttraction := 0.3, cambiumRate := 0.5, mycorrhizalAffinity := 0.9,
    herbivorySusceptibility := 0.5, defenseStrength := 0.7 }

/-- data.js `SEEDS.wildflower` (an annual, used for life-cycle claims). -/
def wildflower : Seed :=
  { icon := "🌸", lifespan := .annual, deciduous := false,
    growthRate := 1.5, startEnergy := 30, startWater := 35, startNutrients := 30,
    npkNeed := { n := 1.1, p := 0.9, k := 1.0 },
    trunkStrength := 0.3, rootEfficiency := 0.7, leafEfficiency := 1.2,
    waterNeed := 0.8, stomatalType := .normal, tempOptimum := 22,
    cavitationResistance := 0.35, floweringSeason := 1,
    pollinatorAttraction := 0.9, cambiumRate := 0, mycorrhizalAffinity := 0.7,
    herbivorySusceptibility := 0.8, defenseStrength := 0.2 }

-- ── Mutable state (gameState.js) ──────────────────────────

/-- A node of the interactive trunk/leaf placement graph. -/
structure PlantNode where
  type : NodeType
  id : ℕ
  parentId : Option ℕ
  x : ℚ
  y : ℚ
  angle : ℚ
  length : ℚ
  thickness : ℚ
  size : ℚ
  children : List ℕ
deriving DecidableEq, Repr

/-- A placement candidate returned by `computePlacementCandidates`.
Trunk candidates carry `length`, leaf candidates carry `size`; the other
field is absent (`none`), exactly as in the JS objects. -/
structure Candidate where
  id : String
  parentNodeId : ℕ
  x : ℚ
  y : ℚ
  angle : ℚ
  length : Option ℚ
  size : Option ℚ
  label : String
deriving DecidableEq, Repr

/-- One root segment of the persistent root fractal graph. -/
structure RootSeg where
  x1 : ℚ
  y1 : ℚ
  x2 : ℚ
  y2 : ℚ
  cpx : ℚ
  cpy : ℚ
  width : ℚ
  maxWidth : ℚ
  colA : String
  colB : String
  rootType : RootKind
deriving DecidableEq, Repr

/-- `plant.rootGraph`: three segment collections plus generation counters. -/
structure RootGraph where
  surface : List RootSeg
  taproot : List RootSeg
  structural : List RootSeg
  surfaceArms : ℕ
  taprootDepth : ℤ
  structuralArms : ℕ
deriving DecidableEq, Repr

/-- The `plant` substructure of the game state. -/
structure Plant where
  rootDepth : ℚ
  rootSpread : ℚ
  rootStructural : ℚ
  trunkHeight : ℚ
  trunkGirth : ℚ
  branchCount : ℚ
  branchLength : ℚ
  leafMass : ℚ
  flowerProgress : ℚ
  seedsProduced : ℤ
  pollinated : Bool
  ageInDays : ℕ
  growthRings : ℕ
  damagedLeaves : ℚ
  scarredTrunk : Bool
  nodes : List PlantNode
  nextNodeId : ℕ
  rootGraph : RootGraph
deriving DecidableEq, Repr

/-- The per-tick environment values. -/
structure EnvState where
  sunlight : ℚ
  rainfall : ℚ
  groundwaterDepth : ℚ
  soilNutrients : ℚ
  temperature : ℚ
deriving DecidableEq, Repr

/-- The one-way capability flags. -/
structure Unlocked where
  trunk : Bool
  branches : Bool
  leaves : Bool
  flower : Bool
deriving DecidableEq, Repr

/-- The interactive placement state. -/
structure Placement where
  mode : Option NodeType
  candidates : List Candidate
  hoveredId : Option String
deriving DecidableEq, Repr

/-- One log entry. -/
structure LogEntry where
  day : ℕ
  msg : String
  type : String
deriving DecidableEq, Repr

/-- The per-tick flow magnitudes stored for the HUD (`gs.flows`). -/
structure Flows where
  photoRate : ℚ
  waterIn : ℚ
  respireCost : ℚ
  nIn : ℚ
  pIn : ℚ
  kIn : ℚ
  transpire : ℚ
deriving DecidableEq, Repr

/-- The full mutable game state of gameState.js (current version). -/
structure GameState where
  biome : Biome
  seed : Seed
  day : ℕ
  season : ℕ
  tick : ℕ
  paused : Bool
  dormant : Bool
  dormancyDepth : ℚ
  lifeComplete : Bool
  settings : Settings
  speed : ℚ
  energy : ℚ
  water : ℚ
  o2 : ℚ
  co2 : ℚ
  nitrogen : ℚ
  phosphorus : ℚ
  potassium : ℚ
  health : ℚ
  env : EnvState
  activeAction : Option Action
  rootType : RootKind
  plant : Plant
  unlocked : Unlocked
  placement : Placement
  flowering : Bool
  log : List LogEntry
  stomata : ℚ
  xylemIntegrity : ℚ
  cavitationEvents : ℕ
  mycorrhizalColonisation : ℚ
  mycorrhizalBonus : ℚ
  herbivorePressure : ℚ
  herbivoreEvent : Bool
  activeWeatherEvent : Option Weather
  weatherEventTimer : ℤ
  weatherEventLog : ℕ
  flows : Option Flows
deriving DecidableEq, Repr

/-- Oracle for one call of `simulateTick` (and for the placement helpers):
the transcendental functions of `Math` and the `Math.random()` draws of each
call site, made explicit.  Theorems quantify over this structure, so they
hold for the true `Math` functions in particular. -/
structure Ticket where
  sin : ℚ → ℚ
  cos : ℚ → ℚ
  exp : ℚ → ℚ
  pi : ℚ
  envSunR : ℚ
  envRainR : ℚ
  envTempR : ℚ
  pollR : ℚ
  herbEventR : ℚ
  herbPressR : ℚ
  herbGrazerR : ℚ
  wxStartR : ℚ
  wxTypeR : ℚ
  wxDurR : ℚ

/-- A fixed concrete oracle used for concrete evaluations: all transcendental
values 0 (cosine 1), all draws 1/2. -/
def ticket0 : Ticket :=
  { sin := fun _ => 0, cos := fun _ => 1, exp := fun _ => 0, pi := 0,
    envSunR := 0.5, envRainR := 0.5, envTempR := 0.5, pollR := 0.5,
    herbEventR := 0.5, herbPressR := 0.5, herbGrazerR := 0.5,
    wxStartR := 0.5, wxTypeR := 0.5, wxDurR := 0.5 }

-- ── Log helper (gameState.js addLog) ──────────────────────

/-- `addLog(gs, msg, type)`: prepend an entry; drop the oldest beyond 40. -/
def addLog (gs : GameState) (msg : String) (type : String) : GameState :=
  let log := ({ day := gs.day, msg := msg, type := type } : LogEntry) :: gs.log
  { gs with log := if log.length > 40 then log.dropLast else log }

-- ── createGameState ───────────────────────────────────────

/-- `createGameState(biome, seed, settings)`.  The three `Math.random()`
draws of the biome-variance `vary` calls are the explicit arguments
`r1 r2 r3` (sunlight, rainfall, soilNutrients, in call order). -/
def createGameState (biome : Biome) (seed : Seed) (settings : Settings)
    (r1 r2 r3 : ℚ) : GameState :=
  let varyB (r base : ℚ) : ℚ := max 0 (min 1 (base + (r - 0.5) * 0.15 * 2))
  { biome := biome, seed := seed, day := 1, season := 0, tick := 0,
    paused := true, dormant := false, dormancyDepth := 0, lifeComplete := false,
    settings := settings, speed := 0,
    energy := seed.startEnergy, water := seed.startWater, o2 := 50, co2 := 50,
    nitrogen := (jsRound (seed.startNutrients * 0.9) : ℚ),
    phosphorus := (jsRound (seed.startNutrients * 0.8) : ℚ),
    potassium := (jsRound (seed.startNutrients * 1.0) : ℚ),
    health := 80,
    env := { sunlight := varyB r1 biome.sunlight, rainfall := varyB r2 biome.rainfall,
             groundwaterDepth := biome.groundwaterDepth,
             soilNutrients := varyB r3 biome.soilNutrients,
             temperature := lerp biome.tempLo biome.tempHi 0.3 },
    activeAction := none, rootType := .surface,
    plant := { rootDepth := 0, rootSpread := 0, rootStructural := 0,
               trunkHeight := 0, trunkGirth := 0, branchCount := 0,
               branchLength := 0, leafMass := 0, flowerProgress := 0,
               seedsProduced := 0, pollinated := false, ageInDays := 0,
               growthRings := 0, damagedLeaves := 0, scarredTrunk := false,
               nodes := [], nextNodeId := 0,
               rootGraph := { surface := [], taproot := [], structural := [],
                              surfaceArms := 0, taprootDepth := 0, structuralArms := 0 } },
    unlocked := { trunk := false, branches := false, leaves := false, flower := false },
    placement := { mode := none, candidates := [], hoveredId := none },
    flowering := false, log := [], stomata := 1.0, xylemIntegrity := 1.0,
    cavitationEvents := 0, mycorrhizalColonisation := 0, mycorrhizalBonus := 0,
    herbivorePressure := 0, herbivoreEvent := false, activeWeatherEvent := none,
    weatherEventTimer := 0, weatherEventLog := 0, flows := none }

-- ── updateEnvironment ─────────────────────────────────────

/-- Per-season sunlight modifiers `[0.85, 1.15, 0.90, 0.60]`. -/
def seasonSunMod (season : ℕ) : ℚ := [(0.85 : ℚ), 1.15, 0.90, 0.60].getD season 0

/-- Per-season rainfall modifiers `[1.10, 0.80, 1.00, 0.90]`. -/
def seasonRainMod (season : ℕ) : ℚ := [(1.10 : ℚ), 0.80, 1.00, 0.90].getD season 0

/-- Per-season temperature interpolation fractions `[0.3, 0.9, 0.6, 0.05]`. -/
def seasonTempFraction (season : ℕ) : ℚ := [(0.3 : ℚ), 0.9, 0.6, 0.05].getD season 0

/-- `updateEnvironment(gs)`. -/
def updateEnvironment (t : Ticket) (gs : GameState) : GameState :=
  { gs with env := { gs.env with
      sunlight := clamp (vary t.envSunR (gs.biome.sunlight * seasonSunMod gs.season) 0.05) 0 1,
      rainfall := clamp (vary t.envRainR (gs.biome.rainfall * seasonRainMod gs.season) 0.08) 0 1,
      temperature := lerp gs.biome.tempLo gs.biome.tempHi (seasonTempFraction gs.season)
                     + (t.envTempR - 0.5) * 3 } }

-- ── updateStomata ─────────────────────────────────────────

/-- The stomatal aperture value computed by `updateStomata`. -/
def stomataValue (gs : GameState) : ℚ :=
  let waterStress := clamp ((gs.water - 10) / 25) 0 1
  let tempDelta := |gs.env.temperature - gs.seed.tempOptimum|
  let tempStress := clamp (1 - tempDelta / 20) 0.1 1.0
  let camFactor : ℚ := if gs.seed.stomatalType = .cam then 0.15 else 1.0
  clamp (waterStress * tempStress * camFactor) 0 1

/-- The logging tail of `updateStomata`. -/
def stomataLogStep (gs : GameState) : GameState :=
  if gs.stomata < 0.2 ∧ gs.tick % 30 = 0 then
    addLog gs "Stomata nearly closed — photosynthesis stalled to conserve water." "danger"
  else if gs.stomata < 0.5 ∧ gs.tick % 60 = 0 then
    addLog gs "Stomata partially closed — trading growth for drought survival." ""
  else gs

/-- `updateStomata(gs)`. -/
def updateStomata (gs : GameState) : GameState :=
  stomataLogStep { gs with stomata := stomataValue gs }

-- ── updateHydraulics ──────────────────────────────────────

/-- Xylem transpiration demand `leafArea * waterNeed * (1 - stomata*0.7)`. -/
def transpireDemandOf (gs : GameState) : ℚ :=
  (gs.plant.leafMass / 100) * gs.seed.waterNeed * (1 - gs.stomata * 0.7)

/-- Water deficit `max(0, (30 - water)/30)`. -/
def waterDeficitOf (gs : GameState) : ℚ := max 0 ((30 - gs.water) / 30)

/-- Xylem tension `transpireDemand * waterDeficit`. -/
def hydroTension (gs : GameState) : ℚ := transpireDemandOf gs * waterDeficitOf gs

/-- The cavitation-damage block of `updateHydraulics`. -/
def cavitationStep (gs : GameState) : GameState :=
  let tension := hydroTension gs
  let cavitationThreshold := gs.seed.cavitationResistance
  if tension > cavitationThreshold ∧ gs.tick % 5 = 0 then
    let damage := (tension - cavitationThreshold) * 0.008
    let gs := { gs with xylemIntegrity := clamp (gs.xylemIntegrity - damage) 0.05 1.0 }
    if damage > 0.002 then
      let gs := { gs with cavitationEvents := gs.cavitationEvents + 1 }
      if gs.cavitationEvents % 5 = 1 then
        addLog gs "Xylem cavitation — air bubbles block water transport!" "danger"
      else gs
    else gs
  else gs

/-- The slow-recovery block of `updateHydraulics`. -/
def xylemRecoveryStep (gs : GameState) : GameState :=
  if gs.xylemIntegrity < 1.0 ∧ gs.water > 50 ∧ gs.health > 60 then
    let recovery := 0.0002 * (gs.plant.trunkGirth / 50 + 0.1)
    { gs with xylemIntegrity := clamp (gs.xylemIntegrity + recovery) 0 1.0 }
  else gs

/-- `updateHydraulics(gs)`. -/
def updateHydraulics (gs : GameState) : GameState :=
  xylemRecoveryStep (cavitationStep gs)

-- ── computeResourceFlows ──────────────────────────────────

/-- Bell-curve temperature factor `_tempFactor`, with `Math.exp` explicit. -/
def tempFactor (e : ℚ → ℚ) (temp optimum breadth : ℚ) : ℚ :=
  let delta := temp - optimum
  max 0 (e (-(delta * delta) / (2 * breadth * breadth)))

/-- The photosynthesis temperature factor: breadth-8 bell curve when the
`tempOptima` setting is on, else 1. -/
def photoTempF (t : Ticket) (gs : GameState) : ℚ :=
  if gs.settings.tempOptima then
    tempFactor t.exp gs.env.temperature gs.seed.tempOptimum 8
  else 1.0

/-- `photoRate` as computed by `computeResourceFlows`. -/
def photoRateOf (t : Ticket) (gs : GameState) : ℚ :=
  let leafArea := gs.plant.leafMass / 100
  let sunFactor := gs.env.sunlight * gs.seed.leafEfficiency
  let co2Factor := clamp (gs.co2 / 60) 0.1 1.5 * gs.stomata
  leafArea * sunFactor * co2Factor * 3.5 * photoTempF t gs *
    (if gs.activeAction = some .leaves then 1.3 else 1.0)

/-- `photoRateEff`: the photosynthesis gain actually added to energy,
dormancy-scaled. -/
def photoRateEffOf (t : Ticket) (gs : GameState) : ℚ :=
  photoRateOf t gs * (1.0 - gs.dormancyDepth * 0.9)

/-- Seed energy trickle: 3.5 while leaf mass is below 5. -/
def seedEnergyOf (gs : GameState) : ℚ := if gs.plant.leafMass < 5 then 3.5 else 0

/-- Respiration cost `max(0.4, biomass * 1.5)`. -/
def respireCostOf (gs : GameState) : ℚ :=
  let biomass := (gs.plant.trunkHeight + gs.plant.branchLength + gs.plant.leafMass
                  + gs.plant.rootSpread) / 100
  max 0.4 (biomass * 1.5)

/-- Respiration modifier from heat and cold stress (tempOptima setting). -/
def respireModOf (gs : GameState) : ℚ :=
  let tempOpt := gs.seed.tempOptimum
  let heatStress := if gs.settings.tempOptima
    then max 0 ((gs.env.temperature - (tempOpt + 12)) / 15) else 0
  let coldStress := if gs.settings.tempOptima
    then max 0 (((tempOpt - 15) - gs.env.temperature) / 15) else 0
  1.0 + heatStress * 1.5 + coldStress * 0.5

/-- Transpiration `leafArea * 0.8 * waterNeed * stomata`. -/
def transpireOf (gs : GameState) : ℚ :=
  (gs.plant.leafMass / 100) * 0.8 * gs.seed.waterNeed * gs.stomata

/-- Dormancy-scaled transpiration. -/
def transpireEffOf (gs : GameState) : ℚ :=
  transpireOf gs * (1.0 - gs.dormancyDepth * 0.8)

/-- Total root fraction `(rootSpread + rootDepth + rootStructural)/100`. -/
def rootTotalOf (gs : GameState) : ℚ :=
  (gs.plant.rootSpread + gs.plant.rootDepth + gs.plant.rootStructural) / 100

/-- Root water uptake (rain capture + tap capture, efficiency-, xylem- and
mycorrhiza-scaled). -/
def waterInOf (gs : GameState) : ℚ :=
  let rt := ROOT_TYPES gs.rootType
  let rainCapture := gs.env.rainfall * gs.plant.rootSpread / 100 * rt.waterBonus * 4.5
  let tapCapture := (5 / gs.env.groundwaterDepth) * gs.plant.rootDepth / 100 * rt.waterBonus * 2.0
  (rainCapture + tapCapture) * gs.seed.rootEfficiency * gs.xylemIntegrity
    * (1 + gs.mycorrhizalBonus * 0.4)

/-- Pooled nutrient flow of the non-NPK fallback branch. -/
def nutPoolOf (gs : GameState) : ℚ :=
  rootTotalOf gs * gs.biome.soilNutrients * (ROOT_TYPES gs.rootType).nutrientBonus
    * gs.seed.rootEfficiency * 1.5

/-- Nitrogen inflow. -/
def nInOf (gs : GameState) : ℚ :=
  if gs.settings.npkNutrients then
    rootTotalOf gs * gs.biome.npk.n * (ROOT_TYPES gs.rootType).nutrientBonus
      * gs.seed.rootEfficiency * 1.5 * gs.seed.npkNeed.n
  else nutPoolOf gs * 0.5

/-- Phosphorus inflow (mycorrhiza-boosted). -/
def pInOf (gs : GameState) : ℚ :=
  if gs.settings.npkNutrients then
    rootTotalOf gs * gs.biome.npk.p * (ROOT_TYPES gs.rootType).nutrientBonus
      * gs.seed.rootEfficiency * 1.2 * gs.seed.npkNeed.p * (1 + gs.mycorrhizalBonus * 0.8)
  else nutPoolOf gs * 0.3 * (1 + gs.mycorrhizalBonus * 0.8)

/-- Potassium inflow. -/
def kInOf (gs : GameState) : ℚ :=
  if gs.settings.npkNutrients then
    rootTotalOf gs * gs.biome.npk.k * (ROOT_TYPES gs.rootType).nutrientBonus
      * gs.seed.rootEfficiency * 1.0 * gs.seed.npkNeed.k
  else nutPoolOf gs * 0.2

/-- O2 output `leafArea * sunFactor * 1.5`. -/
def o2OutOf (gs : GameState) : ℚ :=
  (gs.plant.leafMass / 100) * (gs.env.sunlight * gs.seed.leafEfficiency) * 1.5

/-- CO2 consumed `leafArea * sunFactor * 0.8`. -/
def co2ConsumedOf (gs : GameState) : ℚ :=
  (gs.plant.leafMass / 100) * (gs.env.sunlight * gs.seed.leafEfficiency) * 0.8

/-- O2 consumed by roots `rootTotal * 0.3`. -/
def o2ConsumedOf (gs : GameState) : ℚ := rootTotalOf gs * 0.3

/-- Flat per-tick growth action costs (energy, water, nutrients),
zero when no action is active. -/
structure GrowCosts where
  energy : ℚ
  water : ℚ
  nutrients : ℚ
deriving DecidableEq, Repr

/-- The growth-action tick costs of `computeResourceFlows`. -/
def growCostsOf : Option Action → GrowCosts
  | none => { energy := 0, water := 0, nutrients := 0 }
  | some a =>
    { energy := 2.0,
      water := if a = .roots then 1.5 else 0.8,
      nutrients := if a = .trunk then 1.2 else if a = .branches then 1.0 else 0.6 }

/-- `computeResourceFlows(gs)`. -/
def computeResourceFlows (t : Ticket) (gs : GameState) : GameState :=
  let gc := growCostsOf gs.activeAction
  { gs with
    energy := clamp (gs.energy + photoRateEffOf t gs + seedEnergyOf gs
                     - respireCostOf gs * respireModOf gs - gc.energy) 0 RESOURCE_MAX,
    water := clamp (gs.water + waterInOf gs - transpireEffOf gs - gc.water) 0 RESOURCE_MAX,
    nitrogen := clamp (gs.nitrogen + nInOf gs - gc.nutrients * 0.5) 0 RESOURCE_MAX,
    phosphorus := clamp (gs.phosphorus + pInOf gs - gc.nutrients * 0.3) 0 RESOURCE_MAX,
    potassium := clamp (gs.potassium + kInOf gs - gc.nutrients * 0.2) 0 RESOURCE_MAX,
    o2 := clamp (gs.o2 + o2OutOf gs - o2ConsumedOf gs) 0 RESOURCE_MAX,
    co2 := clamp (gs.co2 - co2ConsumedOf gs + respireCostOf gs * 0.3) 0 RESOURCE_MAX,
    flows := some { photoRate := photoRateOf t gs, waterIn := waterInOf gs,
                    respireCost := respireCostOf gs, nIn := nInOf gs,
                    pIn := pInOf gs, kIn := kInOf gs, transpire := transpireOf gs } }

-- ── applyGrowth ───────────────────────────────────────────

/-- `applyGrowth(gs)`. -/
def applyGrowth (gs : GameState) : GameState :=
  match gs.activeAction with
  | none => gs
  | some action =>
    if gs.energy < 5 ∨ gs.water < 3 then gs
    else if gs.dormant then gs
    else
      let rt := ROOT_TYPES gs.rootType
      let spd := gs.seed.growthRate * 0.6
      let nFactor := if gs.settings.npkNutrients then clamp (gs.nitrogen / 30) 0.1 1.5 else 1.0
      let pFactor := if gs.settings.npkNutrients then clamp (gs.phosphorus / 30) 0.1 1.5 else 1.0
      let kFactor := if gs.settings.npkNutrients then clamp (gs.potassium / 30) 0.5 1.2 else 1.0
      let spdR := spd * pFactor * kFactor
      let spdT := spd * pFactor
      let spdB := spd * nFactor * kFactor
      let spdL := spd * nFactor
      match action with
      | .roots =>
        match gs.rootType with
        | .taproot =>
          { gs with plant := { gs.plant with
              rootDepth := clamp (gs.plant.rootDepth + spdR * rt.waterBonus) 0 100,
              rootStructural := clamp (gs.plant.rootStructural + spdR * 0.3) 0 100 } }
        | .structural =>
          { gs with plant := { gs.plant with
              rootStructural := clamp (gs.plant.rootStructural + spdR * rt.structuralBonus) 0 100,
              rootSpread := clamp (gs.plant.rootSpread + spdR * 0.4) 0 100,
              rootDepth := clamp (gs.plant.rootDepth + spdR * 0.5) 0 100 } }
        | .surface =>
          { gs with plant := { gs.plant with
              rootSpread := clamp (gs.plant.rootSpread + spdR * rt.nutrientBonus) 0 100,
              rootDepth := clamp (gs.plant.rootDepth + spdR * 0.2) 0 100 } }
      | .trunk =>
        if ¬gs.unlocked.trunk then gs
        else
          let totalAnchor := gs.plant.rootStructural + gs.plant.rootDepth * 0.5
                             + gs.plant.rootSpread * 0.3
          let supportFrac := clamp (totalAnchor / max 8 (gs.plant.trunkHeight * 0.8)) 0 1
          let trunkGain := spdT * gs.seed.trunkStrength * supportFrac
          { gs with plant := { gs.plant with
              trunkHeight := clamp (gs.plant.trunkHeight + trunkGain) 0 100,
              trunkGirth := clamp (gs.plant.trunkGirth + trunkGain * 0.4) 0 100 } }
      | .branches =>
        if ¬gs.unlocked.branches then gs
        else
          let trunkSupport := gs.plant.trunkHeight / 20
          let branchGain := spdB * min 1 trunkSupport
          { gs with plant := { gs.plant with
              branchCount := clamp (gs.plant.branchCount + branchGain * 0.5) 0 100,
              branchLength := clamp (gs.plant.branchLength + branchGain) 0 100 } }
      | .leaves =>
        if ¬gs.unlocked.leaves then gs
        else
          let branchBase := max 0.2 (gs.plant.branchLength / 15 + gs.plant.trunkHeight / 30)
          let totalRoots := gs.plant.rootSpread + gs.plant.rootDepth + gs.plant.rootStructural
          let rootBalance := clamp (totalRoots / max 10 (gs.plant.leafMass * 1.5)) 0 1
          { gs with plant := { gs.plant with
              leafMass := clamp (gs.plant.leafMass
                + spdL * branchBase * gs.seed.leafEfficiency * rootBalance) 0 100 } }

-- ── seedBaseNode ──────────────────────────────────────────

/-- `seedBaseNode(gs)`: create the first trunk node once leaf mass reaches
0.5 and no node exists yet.  (The JS object carries no `size` key for this
node; it is modelled as 0.) -/
def seedBaseNode (t : Ticket) (gs : GameState) : GameState :=
  if gs.plant.leafMass ≥ 0.5 ∧ gs.plant.nodes.length = 0 then
    let node : PlantNode :=
      { type := .trunk, id := gs.plant.nextNodeId, parentId := none,
        x := 0, y := -6, angle := -t.pi / 2, length := 6, thickness := 2,
        size := 0, children := [] }
    let gs := { gs with plant := { gs.plant with
      nodes := gs.plant.nodes ++ [node], nextNodeId := gs.plant.nextNodeId + 1 } }
    addLog gs "A seedling has sprouted — choose where to grow your first trunk segment!" "good"
  else gs

-- ── checkUnlocks ──────────────────────────────────────────

/-- The anchor score `rootStructural + rootDepth*0.5 + rootSpread*0.3`. -/
def anchorScoreOf (gs : GameState) : ℚ :=
  gs.plant.rootStructural + gs.plant.rootDepth * 0.5 + gs.plant.rootSpread * 0.3

/-- Trunk unlock gate of `checkUnlocks`. -/
def unlockTrunkStep (gs : GameState) : GameState :=
  if ¬gs.unlocked.trunk ∧ anchorScoreOf gs ≥ 8 then
    addLog { gs with unlocked := { gs.unlocked with trunk := true } }
      "Your roots can support a trunk — but keep them growing to match it!" "good"
  else gs

/-- Trunk-progress hint log of `checkUnlocks`. -/
def trunkHintStep (gs : GameState) : GameState :=
  if ¬gs.unlocked.trunk ∧ anchorScoreOf gs ≥ 4 ∧ gs.tick % 20 = 0 then
    addLog gs ("Roots " ++ toString (jsRound (anchorScoreOf gs))
      ++ "/8 anchor strength — almost ready for a trunk.") ""
  else gs

/-- Leaves unlock gate of `checkUnlocks`. -/
def unlockLeavesStep (gs : GameState) : GameState :=
  if ¬gs.unlocked.leaves ∧ gs.plant.nodes.length > 0 then
    addLog { gs with unlocked := { gs.unlocked with leaves := true } }
      "The seedling can grow leaves — balance leaf growth with your roots!" "good"
  else gs

/-- Branches unlock gate of `checkUnlocks`. -/
def unlockBranchesStep (gs : GameState) : GameState :=
  if ¬gs.unlocked.branches ∧ gs.plant.trunkHeight ≥ 16 then
    addLog { gs with unlocked := { gs.unlocked with branches := true } }
      "The trunk is tall enough to grow branches." "good"
  else gs

/-- `checkUnlocks(gs)`.  (The anchor score is computed from `gs.plant`,
which none of the steps modifies, so recomputing it per step is exact.) -/
def checkUnlocks (gs : GameState) : GameState :=
  unlockBranchesStep (unlockLeavesStep (trunkHintStep (unlockTrunkStep gs)))

-- ── updateHealth ──────────────────────────────────────────

/-- The accumulated stress score of `updateHealth`. -/
def healthStressOf (t : Ticket) (gs : GameState) : ℚ :=
  let base : ℚ :=
    (if gs.energy < 10 then 2 else 0) + (if gs.water < 10 then 3 else 0)
    + (if gs.nitrogen < 8 ∨ gs.phosphorus < 8 then 1 else 0)
    + (if gs.potassium < 8 then 1 else 0) + (if gs.o2 < 15 then 1 else 0)
  let tFactor := tempFactor t.exp gs.env.temperature gs.seed.tempOptimum 10
  let coldHardening := if gs.dormant then gs.dormancyDepth else 0
  let effectiveTFactor := tFactor + coldHardening * 0.4
  base +
    (if gs.settings.tempOptima then
      (if effectiveTFactor < 0.3 then 2 else if effectiveTFactor < 0.6 then 1 else 0)
     else 0)

/-- The extreme-temperature log of `updateHealth`. -/
def tempStressLogStep (t : Ticket) (gs : GameState) : GameState :=
  if tempFactor t.exp gs.env.temperature gs.seed.tempOptimum 10 < 0.2
      ∧ gs.tick % 40 = 0 then
    addLog gs ("Extreme "
      ++ (if gs.env.temperature > gs.seed.tempOptimum then "heat" else "cold")
      ++ " stress — enzymes failing, growth halted.") "danger"
  else gs

/-- The health move of `updateHealth`: +0.3 toward 100 when stress-free,
else down by `stress * 0.5`. -/
def healthSetStep (t : Ticket) (gs : GameState) : GameState :=
  if healthStressOf t gs = 0 then { gs with health := clamp (gs.health + 0.3) 0 100 }
  else { gs with health := clamp (gs.health - healthStressOf t gs * 0.5) 0 100 }

/-- The low-health warning log of `updateHealth`. -/
def healthWarnStep (gs : GameState) : GameState :=
  if gs.health < 30 ∧ gs.tick % 50 = 0 then
    addLog gs "The plant is struggling to survive!" "danger"
  else gs

/-- `updateHealth(gs)`.  (The stress score reads pools the logging step does
not modify, so recomputing it per step is exact.) -/
def updateHealth (t : Ticket) (gs : GameState) : GameState :=
  healthWarnStep (healthSetStep t (tempStressLogStep t gs))

-- ── Root fractal graph (updateRootGraph and helpers) ──────

/-- `_seededRand(seed)`: deterministic hash to a value in `[0,1)` (for the
true sine).  The `Math.sin` oracle is explicit. -/
def seededRand (sin : ℚ → ℚ) (seed : ℚ) : ℚ :=
  let s := sin (seed + 1) * 43758.5453
  s - (⌊s⌋ : ℤ)

/-- Gradient colour pair per root type (the `colours` table). -/
def rootColours : RootKind → String × String
  | .surface => ("#c8a060", "#a07840")
  | .taproot => ("#7a3a18", "#3a1a06")
  | .structural => ("#a06030", "#5a3018")

/-- Child angle policy of `_recurseRoot` (per root type). -/
def childAngleOf (t : Ticket) (rootType : RootKind) (a fraction : ℚ) : ℚ :=
  match rootType with
  | .surface =>
    let childAngle := a + fraction * 0.35
    let isRight := t.cos childAngle > 0
    let maxDip : ℚ := 0.38
    if isRight then min childAngle maxDip else max childAngle (t.pi - maxDip)
  | .taproot =>
    let childAngle := a + fraction * 0.18
    childAngle * 0.25 + (t.pi / 2) * 0.75
  | .structural =>
    let childAngle := a + fraction * 0.28
    let target := a + 0.20
    childAngle * 0.80 + target * 0.20

/-- `_recurseRoot`: seeded recursive fractal walk.  `depth` is the structural
recursion fuel (JS stops at `depth <= 0`). -/
def recurseRoot (t : Ticket) (x y angle length : ℚ) (depth : ℕ) (width : ℚ)
    (rootType : RootKind) (armSeed : ℕ) (segIndex : ℕ) : List RootSeg :=
  match depth with
  | 0 => []
  | d + 1 =>
    if length < 2.5 then []
    else
      let key : ℚ := (armSeed : ℚ) * 1000 + (segIndex : ℚ) * 37 + ((d : ℚ) + 1) * 13
      let rng := seededRand t.sin key
      let rng2 := seededRand t.sin (key + 7)
      let rng3 := seededRand t.sin (key + 17)
      let wobbleAmt : ℚ := if rootType = .taproot then 0.08 else 0.14
      let wobble := (rng - 0.5) * wobbleAmt
      let a := angle + wobble
      let ex := x + t.cos a * length
      let ey := y + t.sin a * length
      let lateralWobble := if rootType = .surface then (rng2 - 0.5) * length * 0.35
                           else (rng2 - 0.5) * length * 0.22
      let depthWobble := if rootType = .surface then (rng3 - 0.5) * length * 0.06
                         else (rng3 - 0.5) * length * 0.15
      let mx := (x + ex) / 2 + lateralWobble
      let my := (y + ey) / 2 + depthWobble
      let cols := rootColours rootType
      let maxW := if rootType = .structural then width * 1.6
                  else if rootType = .taproot then width * 1.4
                  else width * 1.2
      let seg : RootSeg :=
        { x1 := x, y1 := y, x2 := ex, y2 := ey, cpx := mx, cpy := my,
          width := width * 0.35, maxWidth := maxW,
          colA := cols.1, colB := cols.2, rootType := rootType }
      let childLen := length * 0.60
      let childW := width * 0.58
      if d ≥ 1 then
        seg :: (recurseRoot t ex ey (childAngleOf t rootType a (-0.5)) childLen d childW
                  rootType armSeed (segIndex * 10 + 1)
                ++ recurseRoot t ex ey (childAngleOf t rootType a 0.5) childLen d childW
                  rootType armSeed (segIndex * 10 + 2))
      else
        seg :: recurseRoot t ex ey (childAngleOf t rootType a 0) childLen d childW
                 rootType armSeed (segIndex * 10 + 1)

/-- `_buildRootSegments`. -/
def buildRootSegments (t : Ticket) (startX startY angle length : ℚ) (depth : ℕ)
    (width : ℚ) (rootType : RootKind) (armSeed : ℕ) : List RootSeg :=
  recurseRoot t startX startY angle length depth width rootType armSeed 0

/-- One new surface arm (the body of the surface-arm loop of
`updateRootGraph`). -/
def surfaceArmSegs (t : Ticket) (rootSpread : ℚ) (armIndex : ℕ) : List RootSeg :=
  let fan : ℕ := armIndex / 2
  let dipAngle := min 0.52 (0.14 + (fan : ℚ) * 0.21)
  let baseAngle := if armIndex % 2 = 0 then dipAngle else t.pi - dipAngle
  let segLen := 20 + rootSpread * 2.0
  buildRootSegments t 0 0 baseAngle segLen 3 1.4 .surface armIndex

/-- One new structural arm (the body of the structural-arm loop of
`updateRootGraph`). -/
def structuralArmSegs (t : Ticket) (rootStructural : ℚ) (armIndex : ℕ) : List RootSeg :=
  let fan : ℕ := armIndex / 2
  let baseAngle := if armIndex % 2 = 0 then 0.5 + (fan : ℚ) * 0.28
                   else t.pi - 0.5 - (fan : ℚ) * 0.28
  let segLen := 16 + rootStructural * 0.9
  buildRootSegments t 0 0 baseAngle segLen 2 2.8 .structural armIndex

/-- Surface-arm generation phase of `updateRootGraph`. -/
def growSurfaceArms (t : Ticket) (rootSpread : ℚ) (rg : RootGraph) : RootGraph :=
  let targetSurfaceArms : ℤ := max 0 ⌊rootSpread / 12⌋
  if targetSurfaceArms > (rg.surfaceArms : ℤ) then
    let newArms := (targetSurfaceArms - rg.surfaceArms).toNat
    let added := ((List.range newArms).map
      (fun a => surfaceArmSegs t rootSpread (rg.surfaceArms + a))).flatten
    { rg with surface := rg.surface ++ added, surfaceArms := targetSurfaceArms.toNat }
  else rg

/-- Taproot depth-level phase of `updateRootGraph`: a deeper target depth
clears and rebuilds the whole taproot collection. -/
def growTaproot (t : Ticket) (rootDepth : ℚ) (rg : RootGraph) : RootGraph :=
  let targetDepth : ℤ := min 4 (1 + ⌊rootDepth / 22⌋)
  if targetDepth > rg.taprootDepth then
    let rootLen := rootDepth * 2.6
    let segs := buildRootSegments t 0 0 (t.pi / 2) rootLen targetDepth.toNat 2.2 .taproot 0
    { rg with taproot := segs, taprootDepth := targetDepth }
  else rg

/-- Structural-arm generation phase of `updateRootGraph`. -/
def growStructuralArms (t : Ticket) (rootStructural : ℚ) (rg : RootGraph) : RootGraph :=
  let targetStructArms : ℤ := max 0 ⌊rootStructural / 15⌋
  if targetStructArms > (rg.structuralArms : ℤ) then
    let newArms := (targetStructArms - rg.structuralArms).toNat
    let added := ((List.range newArms).map
      (fun a => structuralArmSegs t rootStructural (rg.structuralArms + a))).flatten
    { rg with structural := rg.structural ++ added,
              structuralArms := targetStructArms.toNat }
  else rg

/-- Nudge one segment width toward its maximum. -/
def thickenSeg (scale : ℚ) (s : RootSeg) : RootSeg :=
  { s with width := min (s.width + scale) s.maxWidth }

/-- Width-thickening phase of `updateRootGraph`. -/
def thickenAll (plant : Plant) (rg : RootGraph) : RootGraph :=
  let surfScale := 0.012 + plant.rootSpread / 3000
  let tapScale := 0.018 + plant.rootDepth / 2500
  let struScale := 0.020 + plant.rootStructural / 2200
  { rg with
    surface := rg.surface.map (thickenSeg surfScale),
    taproot := rg.taproot.map (thickenSeg tapScale),
    structural := rg.structural.map (thickenSeg struScale) }

/-- `updateRootGraph(gs)`. -/
def updateRootGraph (t : Ticket) (gs : GameState) : GameState :=
  let plant := gs.plant
  let rg := plant.rootGraph
  let rg := growSurfaceArms t plant.rootSpread rg
  let rg := growTaproot t plant.rootDepth rg
  let rg := growStructuralArms t plant.rootStructural rg
  let rg := thickenAll plant rg
  { gs with plant := { plant with rootGraph := rg } }

-- ── updateFlowering ───────────────────────────────────────

/-- Season-dependent pollinator presence `[0.8, 1.0, 0.5, 0.0]`. -/
def pollinatorPresenceOf (season : ℕ) : ℚ := [(0.8 : ℚ), 1.0, 0.5, 0.0].getD season 0

/-- Wrong-season progress decay of `updateFlowering`. -/
def wrongSeasonStep (gs : GameState) : GameState :=
  if gs.plant.flowerProgress > 0 ∧ gs.tick % 5 = 0 then
    { gs with plant := { gs.plant with
        flowerProgress := clamp (gs.plant.flowerProgress - 0.5) 0 100 } }
  else gs

/-- Flower-progress accumulation of `updateFlowering`. -/
def floweringProgressStep (gs : GameState) : GameState :=
  if gs.plant.flowerProgress < 100 then
    let flowerRate := gs.seed.growthRate * 0.4 * (if gs.energy > 20 then 1.0 else 0.3)
    let newProg := clamp (gs.plant.flowerProgress + flowerRate) 0 100
    let gs := { gs with
      plant := { gs.plant with flowerProgress := newProg },
      energy := clamp (gs.energy - 0.3) 0 100 }
    if gs.plant.flowerProgress ≥ 100 ∧ ¬gs.flowering then
      addLog { gs with flowering := true }
        (gs.seed.icon ++ " The plant has flowered! Awaiting pollination…") "good"
    else gs
  else gs

/-- Pollination trial of `updateFlowering`. -/
def pollinationStep (t : Ticket) (gs : GameState) : GameState :=
  if gs.flowering ∧ ¬gs.plant.pollinated then
    let attr := gs.seed.pollinatorAttraction
    let pollinatorPresence := pollinatorPresenceOf gs.season
    let pollChance := if attr = 0 then 0.02 else attr * pollinatorPresence * 0.015
    if t.pollR < pollChance then
      let yieldN : ℤ := jsRound (3 + gs.health / 20 + gs.plant.leafMass / 15
        + (if attr > 0 then pollinatorPresence * 4 else 0))
      let gs := { gs with plant := { gs.plant with
        pollinated := true, seedsProduced := gs.plant.seedsProduced + yieldN } }
      let gs := addLog gs ("Pollination successful! " ++ toString yieldN
        ++ " seeds produced. (Total: " ++ toString gs.plant.seedsProduced ++ ")") "good"
      { gs with
        flowering := false,
        plant := { gs.plant with flowerProgress := 0, pollinated := false } }
    else gs
  else gs

/-- `updateFlowering(gs)`; the pollination `Math.random()` draw is
`t.pollR`. -/
def updateFlowering (t : Ticket) (gs : GameState) : GameState :=
  if ¬(gs.plant.leafMass ≥ 25 ∧ gs.plant.ageInDays ≥ 30) then gs
  else if ¬(gs.seed.floweringSeason = -1 ∨ gs.seed.floweringSeason = (gs.season : ℤ)) then
    wrongSeasonStep gs
  else
    pollinationStep t (floweringProgressStep gs)

-- ── updateLifeCycle ───────────────────────────────────────

/-- The annual-death condition of `updateLifeCycle`:
`(seedsProduced > 0 && season >= 2) || day > 270`. -/
abbrev annualDeathCond (gs : GameState) : Prop :=
  (gs.plant.seedsProduced > 0 ∧ gs.season ≥ 2) ∨ gs.day > 270

/-- Annual-death block of `updateLifeCycle`. -/
def annualDeathStep (gs : GameState) : GameState :=
  if gs.seed.lifespan = .annual ∧ ¬gs.lifeComplete then
    if annualDeathCond gs then
      let gs := { gs with lifeComplete := true, paused := true }
      let gs := addLog gs (gs.seed.icon ++ " Life cycle complete! "
        ++ toString gs.plant.seedsProduced ++ " seeds produced in "
        ++ toString gs.day ++ " days.") "good"
      addLog gs "The annual plant has completed its life. Restart to grow again." ""
    else gs
  else gs

/-- Perennial-dormancy block of `updateLifeCycle`. -/
def perennialDormancyStep (gs : GameState) : GameState :=
  let isWinter := gs.season = 3
  let isSpring := gs.season = 0
  if gs.seed.lifespan = .perennial then
    if isWinter then
      let targetDepth : ℚ := 0.9
      let gs := { gs with dormancyDepth := clamp (gs.dormancyDepth + 0.02) 0 targetDepth }
      if ¬gs.dormant ∧ gs.dormancyDepth > 0.5 then
        let gs := { gs with dormant := true }
        let gs := addLog gs
          "The plant enters winter dormancy — metabolism slows to survive the cold." ""
        if gs.seed.deciduous then
          addLog { gs with plant := { gs.plant with
              leafMass := clamp (gs.plant.leafMass * 0.15) 0 100 } }
            "Leaves shed for winter." ""
        else
          { gs with plant := { gs.plant with
              leafMass := clamp (gs.plant.leafMass * 0.75) 0 100 } }
      else gs
    else if isSpring ∧ gs.dormant then
      let gs := { gs with dormancyDepth := clamp (gs.dormancyDepth - 0.04) 0 1 }
      if gs.dormancyDepth ≤ 0 then
        addLog { gs with dormant := false }
          "Spring returns — the plant wakes from dormancy with a burst of growth!" "good"
      else gs
    else if ¬isWinter then
      let gs := { gs with dormancyDepth := clamp (gs.dormancyDepth - 0.05) 0 1 }
      if gs.dormancyDepth ≤ 0 then { gs with dormant := false } else gs
    else gs
  else gs

/-- `updateLifeCycle(gs)`: annual death and perennial dormancy.  (A seed is
either annual or perennial, so exactly one block can act.) -/
def updateLifeCycle (gs : GameState) : GameState :=
  perennialDormancyStep (annualDeathStep gs)

-- ── updateCambium ─────────────────────────────────────────

/-- The cambium phloem flow `min(1, leafMass/40)`. -/
def phloemFlowOf (gs : GameState) : ℚ := min 1 (gs.plant.leafMass / 40)

/-- Girth-gain block of `updateCambium`. -/
def cambiumGirthStep (gs : GameState) : GameState :=
  let energySurplus := max 0 (gs.energy - 40) / 60
  let girthGain := gs.seed.cambiumRate * 0.004 * energySurplus * phloemFlowOf gs
                   * gs.xylemIntegrity
  { gs with plant := { gs.plant with
    trunkGirth := clamp (gs.plant.trunkGirth + girthGain) 0 100 } }

/-- Phloem-starvation root die-back block of `updateCambium`. -/
def phloemStarvationStep (gs : GameState) : GameState :=
  if phloemFlowOf gs < 0.2 ∧ gs.plant.trunkHeight > 10 ∧ gs.tick % 20 = 0 then
    let gs := { gs with plant := { gs.plant with
      rootSpread := clamp (gs.plant.rootSpread - 0.3) 0 100,
      rootStructural := clamp (gs.plant.rootStructural - 0.2) 0 100 } }
    if phloemFlowOf gs < 0.1 ∧ gs.tick % 60 = 0 then
      addLog gs "Phloem starvation — roots losing sugar supply from the canopy!" "danger"
    else gs
  else gs

/-- `updateCambium(gs)`.  (The phloem flow reads `leafMass`, which neither
step modifies, so recomputing it per step is exact.) -/
def updateCambium (gs : GameState) : GameState :=
  if gs.seed.cambiumRate = 0 then gs
  else if gs.dormant then gs
  else
    let gs := phloemStarvationStep (cambiumGirthStep gs)
    { gs with plant := { gs.plant with growthRings := gs.plant.ageInDays / 360 } }

-- ── updateMycorrhizae ─────────────────────────────────────

/-- Average root mass read by `updateMycorrhizae`. -/
def mycoRootMassOf (gs : GameState) : ℚ :=
  (gs.plant.rootSpread + gs.plant.rootDepth + gs.plant.rootStructural) / 3

/-- Colonisation-rate value of `updateMycorrhizae`. -/
def colonRateOf (gs : GameState) : ℚ :=
  gs.seed.mycorrhizalAffinity * gs.biome.fungalNetwork * 0.0005 * (mycoRootMassOf gs / 50)

/-- Colonisation-growth block of `updateMycorrhizae` (with its two
threshold-crossing logs). -/
def colonisationStep (gs : GameState) : GameState :=
  if gs.mycorrhizalColonisation < 1.0 then
    let colonRate := colonRateOf gs
    let gs : GameState := { gs with
      mycorrhizalColonisation := clamp (gs.mycorrhizalColonisation + colonRate) 0 1.0 }
    let gs : GameState :=
      if gs.mycorrhizalColonisation > 0.3 ∧ gs.mycorrhizalColonisation - colonRate ≤ 0.3 then
        addLog gs "🍄 Mycorrhizal fungi are colonising your roots — nutrient uptake improving!" "good"
      else gs
    if gs.mycorrhizalColonisation > 0.8 ∧ gs.mycorrhizalColonisation - colonRate ≤ 0.8 then
      addLog gs "🍄 Mycorrhizal network fully established — major phosphorus and water boost!" "good"
    else gs
  else gs

/-- Sugar-cost and uptake-bonus block of `updateMycorrhizae`. -/
def mycoCostBonusStep (gs : GameState) : GameState :=
  let sugarCost := gs.mycorrhizalColonisation * gs.seed.mycorrhizalAffinity * 0.05
  let gs : GameState := { gs with energy := clamp (gs.energy - sugarCost) 0 100 }
  { gs with mycorrhizalBonus :=
      gs.mycorrhizalColonisation * gs.seed.mycorrhizalAffinity * gs.biome.fungalNetwork }

/-- Stress die-back block of `updateMycorrhizae`. -/
def mycoDegradeStep (gs : GameState) : GameState :=
  if gs.health < 20 ∧ gs.tick % 30 = 0 then
    { gs with mycorrhizalColonisation := clamp (gs.mycorrhizalColonisation - 0.02) 0 1.0 }
  else gs

/-- `updateMycorrhizae(gs)`.  (Root mass, affinity and network are read from
fields no step modifies, so recomputing them per step is exact.) -/
def updateMycorrhizae (gs : GameState) : GameState :=
  if mycoRootMassOf gs < 10 then gs
  else mycoDegradeStep (mycoCostBonusStep (colonisationStep gs))

-- ── updateHerbivory ───────────────────────────────────────

/-- Season modifier for herbivore events `[0.8, 1.2, 1.0, 0.1]`. -/
def herbSeasonMod (season : ℕ) : ℚ := [(0.8 : ℚ), 1.2, 1.0, 0.1].getD season 0

/-- Event-start block of `updateHerbivory`. -/
def herbStartStep (t : Ticket) (gs : GameState) : GameState :=
  if ¬gs.herbivoreEvent ∧ gs.plant.leafMass > 10 ∧ gs.tick % 20 = 0 then
    let chance := 0.04 * gs.seed.herbivorySusceptibility * herbSeasonMod gs.season
                  * (1 - gs.seed.defenseStrength * 0.6)
    if t.herbEventR < chance then
      let gs : GameState := { gs with
        herbivoreEvent := true,
        herbivorePressure := 0.3 + t.herbPressR * 0.5 }
      let isGrazer := gs.plant.trunkHeight > 15 ∧ t.herbGrazerR < 0.3
      let gs : GameState :=
        if isGrazer then
          addLog gs "🦌 A grazer is chewing on your trunk! Structural damage imminent." "danger"
        else
          addLog gs "🐛 Insects are devouring your leaves! Activate defense response?" "danger"
      if isGrazer then { gs with herbivorePressure := 0.8 } else gs
    else gs
  else gs

/-- Active-event damage block of `updateHerbivory`. -/
def herbDamageStep (gs : GameState) : GameState :=
  if gs.herbivoreEvent then
    let damage := gs.herbivorePressure * gs.seed.herbivorySusceptibility
                  * (1 - gs.seed.defenseStrength * 0.7) * 0.3
    let gs : GameState := { gs with plant := { gs.plant with
      leafMass := clamp (gs.plant.leafMass - damage) 0 100,
      damagedLeaves := clamp (gs.plant.damagedLeaves + damage * 0.5) 0 100 } }
    let gs : GameState :=
      if gs.herbivorePressure > 0.7 ∧ gs.plant.trunkHeight > 5 then
        let gs : GameState := { gs with plant := { gs.plant with
          trunkGirth := clamp (gs.plant.trunkGirth - damage * 0.1) 0 100 } }
        if gs.herbivorePressure > 0.85 ∧ ¬gs.plant.scarredTrunk then
          addLog { gs with plant := { gs.plant with scarredTrunk := true } }
            "🦌 Deep trunk scarring — structural support permanently reduced!" "danger"
        else gs
      else gs
    let gs : GameState := { gs with
      energy := clamp (gs.energy - gs.seed.defenseStrength * 0.15) 0 100 }
    let gs : GameState := { gs with health := clamp (gs.health - damage * 0.3) 0 100 }
    let gs : GameState := { gs with
      herbivorePressure := clamp (gs.herbivorePressure - 0.015) 0 1.0 }
    if gs.herbivorePressure < 0.05 then
      addLog { gs with herbivoreEvent := false, herbivorePressure := 0 }
        "🌿 Herbivore threat has passed." ""
    else gs
  else gs

/-- `updateHerbivory(gs)`; the three `Math.random()` draws (event start,
initial pressure, grazer classification) are `t.herbEventR`, `t.herbPressR`,
`t.herbGrazerR`.  (Susceptibility and defense are seed constants, so
recomputing them per step is exact; an event started this tick already
applies damage this tick, as in the source.) -/
def updateHerbivory (t : Ticket) (gs : GameState) : GameState :=
  herbDamageStep (herbStartStep t gs)

-- ── updateWeatherEvents ───────────────────────────────────

/-- Start message per weather type. -/
def weatherStartMsg : Weather → String
  | .drought => "☀️ A severe drought has set in! Rainfall has dried up."
  | .flood => "🌊 Heavy rains are causing flooding! Root systems at risk."
  | .storm => "🌪️ A violent storm is hitting — structural roots will be tested!"

/-- Drought effect block of `updateWeatherEvents`. -/
def droughtStep (gs : GameState) : GameState :=
  let gs : GameState := { gs with env := { gs.env with
    rainfall := clamp (gs.env.rainfall * 0.3) 0 0.05 } }
  if gs.weatherEventTimer % 30 = 0 then
    addLog gs "🏜️ Drought continues — rainfall almost zero." "danger"
  else gs

/-- Flood effect block of `updateWeatherEvents`. -/
def floodStep (gs : GameState) : GameState :=
  let gs : GameState := { gs with
    env := { gs.env with rainfall := min 1 (gs.env.rainfall * 1.5 + 0.4) },
    water := min 100 (gs.water + 2) }
  let gs : GameState :=
    if gs.tick % 10 = 0 then
      { gs with plant := { gs.plant with
        rootSpread := clamp (gs.plant.rootSpread - 0.4) 0 100,
        rootStructural := clamp (gs.plant.rootStructural - 0.2) 0 100 } }
    else gs
  if gs.weatherEventTimer % 30 = 0 then
    addLog gs "🌊 Flooding — roots starved of oxygen, structural roots dying." "danger"
  else gs

/-- Storm effect block of `updateWeatherEvents`. -/
def stormStep (gs : GameState) : GameState :=
  let windStress := 1.0 - clamp (gs.plant.rootStructural / 40) 0 1
  let gs : GameState :=
    if gs.tick % 5 = 0 ∧ windStress > 0.3 then
      { gs with plant := { gs.plant with
        branchLength := clamp (gs.plant.branchLength - windStress * 0.8) 0 100,
        leafMass := clamp (gs.plant.leafMass - windStress * 1.2) 0 100 } }
    else gs
  if gs.weatherEventTimer % 20 = 0 then
    addLog gs "🌪️ Storm battering the plant — branches and leaves tearing!" "danger"
  else gs

/-- Event-end block of `updateWeatherEvents`. -/
def weatherEndStep (ev : Weather) (gs : GameState) : GameState :=
  if gs.weatherEventTimer ≤ 0 then
    addLog { gs with activeWeatherEvent := none, weatherEventTimer := 0 }
      ("Weather event ended: " ++ weatherName ev ++ " has passed.") ""
  else gs

/-- Active-event branch of `updateWeatherEvents` (timer decrement,
per-type effect, end check). -/
def weatherActiveStep (ev : Weather) (gs : GameState) : GameState :=
  let gs : GameState := { gs with weatherEventTimer := gs.weatherEventTimer - 1 }
  let gs : GameState :=
    match ev with
    | .drought => droughtStep gs
    | .flood => floodStep gs
    | .storm => stormStep gs
  weatherEndStep ev gs

/-- New-event branch of `updateWeatherEvents`. -/
def weatherStartStep (t : Ticket) (gs : GameState) : GameState :=
  if gs.tick % 50 ≠ 0 then gs
  else if (gs.day : ℤ) - (gs.weatherEventLog : ℤ) < 90 then gs
  else
    let eventChance : ℚ := 0.15
    if t.wxStartR > eventChance then gs
    else
      let wd : ℚ := if gs.biome.rainfall < 0.4 then 0.5
                    else if gs.biome.rainfall < 0.7 then 0.25 else 0.10
      let wf : ℚ := if gs.biome.groundwaterDepth ≤ 2 then 0.35 else 0.15
      let ws : ℚ := if |gs.biome.wind| > 0.3 then 0.4 else 0.20
      let total := wd + wf + ws
      let r0 := t.wxTypeR * total
      let chosen := if r0 - wd ≤ 0 then Weather.drought
                    else if r0 - wd - wf ≤ 0 then Weather.flood
                    else Weather.storm
      let duration : ℤ := (20 + ⌊t.wxDurR * 40⌋) * 10
      let gs : GameState := { gs with
        activeWeatherEvent := some chosen,
        weatherEventTimer := duration, weatherEventLog := gs.day }
      addLog gs (weatherStartMsg chosen) "danger"

/-- `updateWeatherEvents(gs)`; the three `Math.random()` draws (start
chance, type choice, duration) are `t.wxStartR`, `t.wxTypeR`, `t.wxDurR`. -/
def updateWeatherEvents (t : Ticket) (gs : GameState) : GameState :=
  match gs.activeWeatherEvent with
  | some ev => weatherActiveStep ev gs
  | none => weatherStartStep t gs

-- ── simulateTick ──────────────────────────────────────────

/-- The tick/day/season header of `simulateTick`. -/
def tickHeader (gs : GameState) : GameState :=
  let tick := gs.tick + 1
  let day := tick / 10 + 1
  let season := (day % 360) / 90
  { gs with tick := tick, day := day, season := season,
            plant := { gs.plant with ageInDays := day } }

/-- The stomata stage of `simulateTick`: regulated, or forced fully open
when the setting is off. -/
def stomataStage (gs : GameState) : GameState :=
  if gs.settings.stomatalRegulation then updateStomata gs
  else { gs with stomata := 1.0 }

/-- The hydraulics stage of `simulateTick`: cavitation model, or integrity
forced to 1.0 when the setting is off. -/
def hydraulicsStage (gs : GameState) : GameState :=
  if gs.settings.hydraulicFailure then updateHydraulics gs
  else { gs with xylemIntegrity := 1.0 }

/-- The optional flowering stage of `simulateTick`. -/
def floweringStage (t : Ticket) (gs : GameState) : GameState :=
  if gs.settings.flowering then updateFlowering t gs else gs

/-- The optional life-cycle stage of `simulateTick`. -/
def lifeCycleStage (gs : GameState) : GameState :=
  if gs.settings.lifeCycles then updateLifeCycle gs else gs

/-- The optional cambium stage of `simulateTick`. -/
def cambiumStage (gs : GameState) : GameState :=
  if gs.settings.cambiumGrowth then updateCambium gs else gs

/-- The optional mycorrhizae stage of `simulateTick`. -/
def mycorrhizaeStage (gs : GameState) : GameState :=
  if gs.settings.mycorrhizae then updateMycorrhizae gs else gs

/-- The optional herbivory stage of `simulateTick`. -/
def herbivoryStage (t : Ticket) (gs : GameState) : GameState :=
  if gs.settings.herbivory then updateHerbivory t gs else gs

/-- The optional weather stage of `simulateTick`. -/
def weatherStage (t : Ticket) (gs : GameState) : GameState :=
  if gs.settings.weatherEvents then updateWeatherEvents t gs else gs

/-- `simulateTick(gs)`: the full per-tick pipeline.  (The source reads the
settings object `s = gs.settings` once at entry; no stage modifies
`settings`, so reading the flag per stage is exact.) -/
def simulateTick (t : Ticket) (gs : GameState) : GameState :=
  let gs := tickHeader gs
  let gs := updateEnvironment t gs
  let gs := stomataStage gs
  let gs := hydraulicsStage gs
  let gs := computeResourceFlows t gs
  let gs := applyGrowth gs
  let gs := updateRootGraph t gs
  let gs := seedBaseNode t gs
  let gs := checkUnlocks gs
  let gs := updateHealth t gs
  let gs := floweringStage t gs
  let gs := lifeCycleStage gs
  let gs := cambiumStage gs
  let gs := mycorrhizaeStage gs
  let gs := herbivoryStage t gs
  weatherStage t gs

-- ── Placement: computePlacementCandidates ─────────────────

/-- Trunk candidate for one tip node and one angle option. -/
def trunkCandidate (t : Ticket) (trunkHeight : ℚ) (node : PlantNode)
    (delta : ℚ) (deltaTag label : String) : Candidate :=
  let segLen := max 16 (12 + trunkHeight * 0.25)
  let angle := node.angle + delta
  { id := "trunk-" ++ toString node.id ++ "-" ++ deltaTag,
    parentNodeId := node.id,
    x := node.x + t.cos angle * segLen,
    y := node.y + t.sin angle * segLen,
    angle := angle, length := some segLen, size := none, label := label }

/-- Leaf candidate for one trunk node and one side. -/
def leafCandidate (t : Ticket) (leafMass : ℚ) (node : PlantNode)
    (side : ℚ) (sideTag label : String) : Candidate :=
  let leafSize := max 10 (8 + leafMass * 0.35)
  let leafAngle := node.angle + side * (t.pi * 0.55)
  let offset := leafSize * 1.2
  { id := "leaf-" ++ toString node.id ++ "-" ++ sideTag,
    parentNodeId := node.id,
    x := node.x + t.cos leafAngle * offset,
    y := node.y + t.sin leafAngle * offset,
    angle := leafAngle, length := none, size := some leafSize, label := label }

/-- `computePlacementCandidates(gs, type)` (read-only: returns a list,
mutates nothing). -/
def computePlacementCandidates (t : Ticket) (gs : GameState) (type : NodeType) :
    List Candidate :=
  let nodes := gs.plant.nodes
  match type with
  | .trunk =>
    ((nodes.filter (fun n => n.type = .trunk)).map (fun node =>
      let hasTrunkChild := node.children.any (fun cid =>
        match nodes.find? (fun n => n.id = cid) with
        | some c => c.type = .trunk
        | none => false)
      if hasTrunkChild then []
      else
        [trunkCandidate t gs.plant.trunkHeight node (-0.45) "-0.45" "↖ Left",
         trunkCandidate t gs.plant.trunkHeight node 0 "0" "↑ Straight",
         trunkCandidate t gs.plant.trunkHeight node 0.45 "0.45" "↗ Right"])).flatten
  | .leaf =>
    ((nodes.filter (fun n => n.type = .trunk)).map (fun node =>
      let leafCount := (node.children.filter (fun cid =>
        match nodes.find? (fun n => n.id = cid) with
        | some c => c.type = .leaf
        | none => false)).length
      if leafCount ≥ 2 then []
      else
        let sideCand (side : ℚ) (sideTag label : String) : List Candidate :=
          let alreadyHasSide := node.children.any (fun cid =>
            match nodes.find? (fun n => n.id = cid) with
            | some c => c.type = .leaf ∧ (if side < 0 then c.x < node.x else c.x ≥ node.x)
            | none => false)
          if alreadyHasSide then []
          else [leafCandidate t gs.plant.leafMass node side sideTag label]
        sideCand (-1) "-1" "← Left leaf" ++ sideCand 1 "1" "→ Right leaf")).flatten

-- ── Placement: commitPlacement ────────────────────────────

/-- Append `cid` to the child list of the first node whose id is `pid`
(the JS `parent.children.push` on the node found by `nodes.find`). -/
def addChildToFirst : List PlantNode → ℕ → ℕ → List PlantNode
  | [], _, _ => []
  | n :: rest, pid, cid =>
    if n.id = pid then { n with children := n.children ++ [cid] } :: rest
    else n :: addChildToFirst rest pid cid

/-- The node literal built by `commitPlacement`. -/
def newNodeOf (gs : GameState) (candidate : Candidate) (type : NodeType)
    (parentId : ℕ) : PlantNode :=
  { type := type, id := gs.plant.nextNodeId, parentId := some parentId,
    x := candidate.x, y := candidate.y, angle := candidate.angle,
    length := jsOr candidate.length 14,
    thickness := if type = .trunk then max 2 (2 + gs.plant.trunkGirth * 0.06) else 0,
    size := if type = .leaf then jsOr candidate.size 12 else 0,
    children := [] }

/-- `commitPlacement(gs, candidate, type)`: silent no-op when the parent id
does not resolve; otherwise append one node, charge the one-time cost, bump
the growth scalars and clear placement mode. -/
def commitPlacement (gs : GameState) (candidate : Candidate) (type : NodeType) :
    GameState :=
  match gs.plant.nodes.find? (fun n => n.id = candidate.parentNodeId) with
  | none => gs
  | some parent =>
    let newNode := newNodeOf gs candidate type parent.id
    let gs := { gs with plant := { gs.plant with
      nodes := addChildToFirst gs.plant.nodes parent.id newNode.id ++ [newNode],
      nextNodeId := gs.plant.nextNodeId + 1 } }
    let gs :=
      if type = .trunk then
        let gs := { gs with plant := { gs.plant with
          trunkHeight := clamp (gs.plant.trunkHeight + 8) 0 100,
          trunkGirth := clamp (gs.plant.trunkGirth + 3) 0 100 } }
        let gs := { gs with
          energy := clamp (gs.energy - 12) 0 100,
          phosphorus := clamp (gs.phosphorus - 6) 0 100,
          nitrogen := clamp (gs.nitrogen - 4) 0 100,
          water := clamp (gs.water - 6) 0 100 }
        addLog gs ("Trunk segment placed (" ++ candidate.label ++ ").") ""
      else
        let gs := { gs with plant := { gs.plant with
          leafMass := clamp (gs.plant.leafMass + 6) 0 100,
          branchLength := clamp (gs.plant.branchLength + 4) 0 100 } }
        let gs := { gs with
          energy := clamp (gs.energy - 8) 0 100,
          water := clamp (gs.water - 5) 0 100,
          nitrogen := clamp (gs.nitrogen - 3) 0 100,
          potassium := clamp (gs.potassium - 1) 0 100 }
        addLog gs ("Leaf cluster placed (" ++ candidate.label ++ ").") "good"
    { gs with placement := { mode := none, candidates := [], hoveredId := none } }

-- ══════════════════════════════════════════════════════════
-- Claim-support definitions
-- ══════════════════════════════════════════════════════════

/-- The range invariant of the spec: every resource pool and every plant
growth-progress scalar lies in the closed interval `[0, 100]`. -/
abbrev InRange (gs : GameState) : Prop :=
  (0 ≤ gs.energy ∧ gs.energy ≤ 100) ∧ (0 ≤ gs.water ∧ gs.water ≤ 100) ∧
  (0 ≤ gs.o2 ∧ gs.o2 ≤ 100) ∧ (0 ≤ gs.co2 ∧ gs.co2 ≤ 100) ∧
  (0 ≤ gs.nitrogen ∧ gs.nitrogen ≤ 100) ∧
  (0 ≤ gs.phosphorus ∧ gs.phosphorus ≤ 100) ∧
  (0 ≤ gs.potassium ∧ gs.potassium ≤ 100) ∧
  (0 ≤ gs.health ∧ gs.health ≤ 100) ∧
  (0 ≤ gs.plant.rootDepth ∧ gs.plant.rootDepth ≤ 100) ∧
  (0 ≤ gs.plant.rootSpread ∧ gs.plant.rootSpread ≤ 100) ∧
  (0 ≤ gs.plant.rootStructural ∧ gs.plant.rootStructural ≤ 100) ∧
  (0 ≤ gs.plant.trunkHeight ∧ gs.plant.trunkHeight ≤ 100) ∧
  (0 ≤ gs.plant.trunkGirth ∧ gs.plant.trunkGirth ≤ 100) ∧
  (0 ≤ gs.plant.branchCount ∧ gs.plant.branchCount ≤ 100) ∧
  (0 ≤ gs.plant.branchLength ∧ gs.plant.branchLength ≤ 100) ∧
  (0 ≤ gs.plant.leafMass ∧ gs.plant.leafMass ≤ 100) ∧
  (0 ≤ gs.plant.flowerProgress ∧ gs.plant.flowerProgress ≤ 100)

/-- The photosynthesis gain formula in the words of the specification
(§4.2 of spec.md, quoted by claim C3): `leafArea * sunlight *
leafEfficiency * co2Factor * temperatureFactor * actionBonus`, scaled by
`(1 - dormancyDepth*0.9)`, with `co2Factor = clamp(co2/60, 0.1, 1.5) *
stomata` — and no other factor. -/
def specPhotoGain (t : Ticket) (gs : GameState) : ℚ :=
  let leafArea := gs.plant.leafMass / 100
  let co2Factor := clamp (gs.co2 / 60) 0.1 1.5 * gs.stomata
  let temperatureFactor := if gs.settings.tempOptima
    then tempFactor t.exp gs.env.temperature gs.seed.tempOptimum 8 else 1.0
  let actionBonus : ℚ := if gs.activeAction = some .leaves then 1.3 else 1.0
  leafArea * gs.env.sunlight * gs.seed.leafEfficiency * co2Factor
    * temperatureFactor * actionBonus * (1 - gs.dormancyDepth * 0.9)

/-- Geometric identity of a root segment: endpoints and control point. -/
abbrev segSameGeom (a b : RootSeg) : Prop :=
  a.x1 = b.x1 ∧ a.y1 = b.y1 ∧ a.x2 = b.x2 ∧ a.y2 = b.y2 ∧
  a.cpx = b.cpx ∧ a.cpy = b.cpy

/-- A core state-mutating operation of a playthrough: one simulation tick or
one placement commit.  (`computePlacementCandidates` returns a list and
mutates nothing, so it has no operation constructor.) -/
inductive Op
  | tick (t : Ticket)
  | commit (c : Candidate) (ty : NodeType)

/-- Apply one core operation to the state. -/
def applyOp (gs : GameState) : Op → GameState
  | .tick t => simulateTick t gs
  | .commit c ty => commitPlacement gs c ty

-- ── Concrete states for witnesses and counterexamples ─────

/-- A fresh oak-in-plains state with all features on (draws fixed at 1/2,
so the environment variance vanishes and `env.sunlight = 0.8`). -/
def baseState : GameState := createGameState plains oak DEFAULT_SETTINGS 0.5 0.5 0.5

/-- The claim C3 scenario seed: `leafEfficiency = 1.0`, `waterNeed = 1.0`
(oak with its leaf efficiency set to 1). -/
def c3Seed : Seed := { oak with leafEfficiency := 1.0 }

/-- Settings with the temperature-optimum curve disabled (so the
temperature factor is exactly 1 and the scenario is oracle-free). -/
def noTempSettings : Settings := { DEFAULT_SETTINGS with tempOptima := false }

/-- The claim C3 scenario state: fresh state in plains (`sunlight = 0.8`),
`activeAction = leaves`, `leafMass = 10`, stomata fully open, not dormant. -/
def c3State : GameState :=
  let b := createGameState plains c3Seed noTempSettings 0.5 0.5 0.5
  { b with activeAction := some .leaves,
           plant := { b.plant with leafMass := 10 } }

/-- A pre-existing taproot segment (as built by an earlier, shallower
taproot generation pass). -/
def oldTapSeg : RootSeg :=
  { x1 := 0, y1 := 0, x2 := 0, y2 := 5, cpx := 0, cpy := 2,
    width := 1, maxWidth := 3, colA := "#7a3a18", colB := "#3a1a06",
    rootType := .taproot }

/-- Claim C2 counterexample state: `rootDepth = 22` has just crossed the
second taproot depth threshold while the stored graph is still at depth 1
with one existing segment. -/
def c2State : GameState :=
  { baseState with plant := { baseState.plant with
      rootDepth := 22,
      rootGraph := { baseState.plant.rootGraph with
        taproot := [oldTapSeg], taprootDepth := 1 } } }

/-- Claim C7 counterexample state: stomata fully closed, `leafMass = 100`,
`water = 16`, so the xylem tension (7/15) exceeds the oak cavitation
threshold (0.45) but the damage `(7/15 - 0.45)*0.008` is below the 0.002
logging/counting threshold; `tick = 0` is a multiple of 5. -/
def c7State : GameState :=
  { baseState with
    stomata := 0, water := 16,
    plant := { baseState.plant with leafMass := 100 } }

/-- Claim C7 witness state: full drought (`water = 0`), tension 1, damage
`(1 - 0.45)*0.008 = 0.0044 > 0.002`. -/
def c7WitState : GameState :=
  { baseState with
    stomata := 0, water := 0,
    plant := { baseState.plant with leafMass := 100 } }

/-- A base trunk node with id 0 (as planted by `seedBaseNode`). -/
def node0 : PlantNode :=
  { type := .trunk, id := 0, parentId := none, x := 0, y := -6,
    angle := -1.5707, length := 6, thickness := 2, size := 0, children := [] }

/-- A state whose node graph holds exactly the base node. -/
def oneNodeState : GameState :=
  { baseState with plant := { baseState.plant with
      nodes := [node0], nextNodeId := 1 } }

/-- A candidate whose `parentNodeId` (7) matches no node of
`oneNodeState` (claim C4). -/
def danglingCand : Candidate :=
  { id := "trunk-7-0", parentNodeId := 7, x := 3, y := -20, angle := -1.5707,
    length := some 16, size := none, label := "↑ Straight" }

/-- A trunk candidate whose parent is the base node (claim C5). -/
def trunkCand : Candidate :=
  { id := "trunk-0-0", parentNodeId := 0, x := 0, y := -22, angle := -1.5707,
    length := some 16, size := none, label := "↑ Straight" }

/-- Claim C9 witness state: parent exists but every pool is below the
nominal trunk placement cost (12 energy / 6 phosphorus / 4 nitrogen /
6 water). -/
def poorState : GameState :=
  { oneNodeState with energy := 5, phosphorus := 2, nitrogen := 1, water := 3 }

/-- Claim C6 witness state: the roots action is selected but energy is
below the growth gate threshold 5. -/
def lowEnergyState : GameState :=
  { baseState with activeAction := some .roots, energy := 1 }

/-- Claim C8 witness state (function level): an annual (wildflower) at
`day = 271`, `season = 3`, no seeds produced, life not yet complete. -/
def annualDoneState : GameState :=
  { createGameState plains wildflower DEFAULT_SETTINGS 0.5 0.5 0.5 with
    day := 271, season := 3, tick := 2700, paused := false }

/-- Claim C8 tick-level witness state: `tick = 2709`, so the next tick
computes `day = 271 > 270`. -/
def annualTickState : GameState :=
  { createGameState plains wildflower DEFAULT_SETTINGS 0.5 0.5 0.5 with
    tick := 2709, day := 270, season := 2, paused := false }

/-- Position-stable append-only preservation with monotone widths: every
segment of the old collection is still at its index in the new collection
with the same geometry, and (while within bounds) its width has not shrunk
and stays within its `maxWidth`. -/
def segPreserved (old new : List RootSeg) : Prop :=
  ∀ i (hi : i < old.length), ∃ hi2 : i < new.length,
    segSameGeom (new.get ⟨i, hi2⟩) (old.get ⟨i, hi⟩) ∧
    ((old.get ⟨i, hi⟩).width ≤ (old.get ⟨i, hi⟩).maxWidth →
      (old.get ⟨i, hi⟩).width ≤ (new.get ⟨i, hi2⟩).width ∧
      (new.get ⟨i, hi2⟩).width ≤ (old.get ⟨i, hi⟩).maxWidth)

/-- Fields preserved by every pipeline stage except the tick header
(day/tick/season) and the life-cycle stage (lifeComplete/paused). -/
abbrev Frame8 (a b : GameState) : Prop :=
  b.seed = a.seed ∧ b.settings = a.settings ∧ b.day = a.day ∧ b.tick = a.tick ∧
  b.season = a.season ∧ b.unlocked.flower = a.unlocked.flower ∧
  b.lifeComplete = a.lifeComplete ∧ b.paused = a.paused

/-- Fields preserved by every pipeline stage except the tick header,
including the life-cycle stage. -/
abbrev Frame6 (a b : GameState) : Prop :=
  b.seed = a.seed ∧ b.settings = a.settings ∧ b.day = a.day ∧ b.tick = a.tick ∧
  b.season = a.season ∧ b.unlocked.flower = a.unlocked.flower

/-- The pipeline prefix of `simulateTick` up to (excluding) the life-cycle
stage. -/
def preLifeState (t : Ticket) (gs : GameState) : GameState :=
  floweringStage t (updateHealth t (checkUnlocks (seedBaseNode t (updateRootGraph t
    (applyGrowth (computeResourceFlows t (hydraulicsStage (stomataStage
      (updateEnvironment t (tickHeader gs))))))))))

-- ══════════════════════════════════════════════════════════
-- Basic lemmas
-- ══════════════════════════════════════════════════════════

theorem clamp01_lb (v : ℚ) : 0 ≤ clamp v 0 100 := le_max_left _ _

theorem clamp01_ub (v : ℚ) : clamp v 0 100 ≤ 100 :=
  max_le (by norm_num) (min_le_left _ _)

theorem minflood_lb (w : ℚ) (h : 0 ≤ w) : 0 ≤ min (100 : ℚ) (w + 2) :=
  le_min (by norm_num) (by linarith)

theorem minflood_ub (w : ℚ) : min (100 : ℚ) (w + 2) ≤ 100 := min_le_left _ _

-- ══════════════════════════════════════════════════════════
-- InRange preservation, stage by stage
-- ══════════════════════════════════════════════════════════

theorem inRange_ite {c : Prop} [Decidable c] {a b : GameState}
    (hA : InRange a) (hB : InRange b) : InRange (if c then a else b) := by
  split
  · exact hA
  · exact hB

theorem inRange_addLog (gs : GameState) (m ty : String) (h : InRange gs) :
    InRange (addLog gs m ty) := h

theorem inRange_tickHeader (gs : GameState) (h : InRange gs) :
    InRange (tickHeader gs) := h

theorem inRange_updateEnvironment (t : Ticket) (gs : GameState) (h : InRange gs) :
    InRange (updateEnvironment t gs) := h

-- Generic setters for fields outside the 17 tracked intervals.

theorem inRange_setStomata (gs : GameState) (v : ℚ) (h : InRange gs) :
    InRange { gs with stomata := v } := h

theorem inRange_setXylem (gs : GameState) (v : ℚ) (h : InRange gs) :
    InRange { gs with xylemIntegrity := v } := h

theorem inRange_setCavEvents (gs : GameState) (n : ℕ) (h : InRange gs) :
    InRange { gs with cavitationEvents := n } := h

theorem inRange_setUnlocked (gs : GameState) (u : Unlocked) (h : InRange gs) :
    InRange { gs with unlocked := u } := h

theorem inRange_setEnv (gs : GameState) (e : EnvState) (h : InRange gs) :
    InRange { gs with env := e } := h

theorem inRange_setFloweringFlag (gs : GameState) (b : Bool) (h : InRange gs) :
    InRange { gs with flowering := b } := h

theorem inRange_setLifePause (gs : GameState) (b c : Bool) (h : InRange gs) :
    InRange { gs with lifeComplete := b, paused := c } := h

theorem inRange_setDormancyDepth (gs : GameState) (v : ℚ) (h : InRange gs) :
    InRange { gs with dormancyDepth := v } := h

theorem inRange_setDormant (gs : GameState) (b : Bool) (h : InRange gs) :
    InRange { gs with dormant := b } := h

theorem inRange_setColonisation (gs : GameState) (v : ℚ) (h : InRange gs) :
    InRange { gs with mycorrhizalColonisation := v } := h

theorem inRange_setMycoBonus (gs : GameState) (v : ℚ) (h : InRange gs) :
    InRange { gs with mycorrhizalBonus := v } := h

theorem inRange_setHerbEvent (gs : GameState) (b : Bool) (v : ℚ) (h : InRange gs) :
    InRange { gs with herbivoreEvent := b, herbivorePressure := v } := h

theorem inRange_setHerbPressure (gs : GameState) (v : ℚ) (h : InRange gs) :
    InRange { gs with herbivorePressure := v } := h

theorem inRange_setWeather (gs : GameState) (o : Option Weather) (n : ℤ)
    (h : InRange gs) :
    InRange { gs with activeWeatherEvent := o, weatherEventTimer := n } := h

theorem inRange_setWeatherStart (gs : GameState) (o : Option Weather) (n : ℤ)
    (d : ℕ) (h : InRange gs) :
    InRange { gs with activeWeatherEvent := o, weatherEventTimer := n,
                      weatherEventLog := d } := h

theorem inRange_setTimer (gs : GameState) (n : ℤ) (h : InRange gs) :
    InRange { gs with weatherEventTimer := n } := h

theorem inRange_setNodes (gs : GameState) (l : List PlantNode) (n : ℕ)
    (h : InRange gs) :
    InRange { gs with plant := { gs.plant with nodes := l, nextNodeId := n } } := h

theorem inRange_setGrowthRings (gs : GameState) (n : ℕ) (h : InRange gs) :
    InRange { gs with plant := { gs.plant with growthRings := n } } := h

theorem inRange_setPollinated (gs : GameState) (b : Bool) (n : ℤ) (h : InRange gs) :
    InRange { gs with plant := { gs.plant with pollinated := b,
                                               seedsProduced := n } } := h

theorem inRange_setScarred (gs : GameState) (b : Bool) (h : InRange gs) :
    InRange { gs with plant := { gs.plant with scarredTrunk := b } } := h

-- Setters that clamp one of the 17 tracked fields.

theorem inRange_setEnergyClamp (gs : GameState) (v : ℚ) (h : InRange gs) :
    InRange { gs with energy := clamp v 0 100 } := by
  obtain ⟨-, hrest⟩ := h
  exact ⟨⟨clamp01_lb _, clamp01_ub _⟩, hrest⟩

theorem inRange_setHealthClamp (gs : GameState) (v : ℚ) (h : InRange gs) :
    InRange { gs with health := clamp v 0 100 } := by
  obtain ⟨h1, h2, h3, h4, h5, h6, h7, -, hrest⟩ := h
  exact ⟨h1, h2, h3, h4, h5, h6, h7, ⟨clamp01_lb _, clamp01_ub _⟩, hrest⟩

theorem inRange_setFlowerProgressClamp (gs : GameState) (v : ℚ) (h : InRange gs) :
    InRange { gs with plant := { gs.plant with
      flowerProgress := clamp v 0 100 } } := by
  obtain ⟨h1, h2, h3, h4, h5, h6, h7, h8, h9, h10, h11, h12, h13, h14, h15, h16, -⟩ := h
  exact ⟨h1, h2, h3, h4, h5, h6, h7, h8, h9, h10, h11, h12, h13, h14, h15, h16,
    ⟨clamp01_lb _, clamp01_ub _⟩⟩

theorem inRange_setFlowerEnergy (gs : GameState) (v w : ℚ) (h : InRange gs) :
    InRange { gs with
      plant := { gs.plant with flowerProgress := clamp v 0 100 },
      energy := clamp w 0 100 } := by
  obtain ⟨-, h2, h3, h4, h5, h6, h7, h8, h9, h10, h11, h12, h13, h14, h15, h16, -⟩ := h
  exact ⟨⟨clamp01_lb _, clamp01_ub _⟩, h2, h3, h4, h5, h6, h7, h8, h9, h10, h11,
    h12, h13, h14, h15, h16, ⟨clamp01_lb _, clamp01_ub _⟩⟩

theorem inRange_resetFlower (gs : GameState) (b c : Bool) (h : InRange gs) :
    InRange { gs with
      flowering := b,
      plant := { gs.plant with flowerProgress := 0, pollinated := c } } := by
  obtain ⟨h1, h2, h3, h4, h5, h6, h7, h8, h9, h10, h11, h12, h13, h14, h15, h16, -⟩ := h
  exact ⟨h1, h2, h3, h4, h5, h6, h7, h8, h9, h10, h11, h12, h13, h14, h15, h16,
    ⟨by norm_num, by norm_num⟩⟩

theorem inRange_setLeafMassClamp (gs : GameState) (v : ℚ) (h : InRange gs) :
    InRange { gs with plant := { gs.plant with leafMass := clamp v 0 100 } } := by
  obtain ⟨h1, h2, h3, h4, h5, h6, h7, h8, h9, h10, h11, h12, h13, h14, h15, -, h17⟩ := h
  exact ⟨h1, h2, h3, h4, h5, h6, h7, h8, h9, h10, h11, h12, h13, h14, h15,
    ⟨clamp01_lb _, clamp01_ub _⟩, h17⟩

theorem inRange_setTrunkGirthClamp (gs : GameState) (v : ℚ) (h : InRange gs) :
    InRange { gs with plant := { gs.plant with trunkGirth := clamp v 0 100 } } := by
  obtain ⟨h1, h2, h3, h4, h5, h6, h7, h8, h9, h10, h11, h12, -, hrest⟩ := h
  exact ⟨h1, h2, h3, h4, h5, h6, h7, h8, h9, h10, h11, h12,
    ⟨clamp01_lb _, clamp01_ub _⟩, hrest⟩

theorem inRange_setRootSpreadStructClamp (gs : GameState) (v w : ℚ) (h : InRange gs) :
    InRange { gs with plant := { gs.plant with
      rootSpread := clamp v 0 100, rootStructural := clamp w 0 100 } } := by
  obtain ⟨h1, h2, h3, h4, h5, h6, h7, h8, h9, -, -, hrest⟩ := h
  exact ⟨h1, h2, h3, h4, h5, h6, h7, h8, h9, ⟨clamp01_lb _, clamp01_ub _⟩,
    ⟨clamp01_lb _, clamp01_ub _⟩, hrest⟩

theorem inRange_flood (gs : GameState) (e : EnvState) (h : InRange gs) :
    InRange { gs with env := e, water := min 100 (gs.water + 2) } := by
  obtain ⟨h1, ⟨hW1, -⟩, hrest⟩ := h
  exact ⟨h1, ⟨minflood_lb _ hW1, minflood_ub _⟩, hrest⟩

theorem inRange_setBranchLeafClamp (gs : GameState) (v w : ℚ) (h : InRange gs) :
    InRange { gs with plant := { gs.plant with
      branchLength := clamp v 0 100, leafMass := clamp w 0 100 } } := by
  obtain ⟨h1, h2, h3, h4, h5, h6, h7, h8, h9, h10, h11, h12, h13, h14, -, -, h17⟩ := h
  exact ⟨h1, h2, h3, h4, h5, h6, h7, h8, h9, h10, h11, h12, h13, h14,
    ⟨clamp01_lb _, clamp01_ub _⟩, ⟨clamp01_lb _, clamp01_ub _⟩, h17⟩

theorem inRange_setLeafDamagedClamp (gs : GameState) (v w : ℚ) (h : InRange gs) :
    InRange { gs with plant := { gs.plant with
      leafMass := clamp v 0 100, damagedLeaves := clamp w 0 100 } } := by
  obtain ⟨h1, h2, h3, h4, h5, h6, h7, h8, h9, h10, h11, h12, h13, h14, h15, -, h17⟩ := h
  exact ⟨h1, h2, h3, h4, h5, h6, h7, h8, h9, h10, h11, h12, h13, h14, h15,
    ⟨clamp01_lb _, clamp01_ub _⟩, h17⟩

theorem inRange_rootsTapClamp (gs : GameState) (v w : ℚ) (h : InRange gs) :
    InRange { gs with plant := { gs.plant with
      rootDepth := clamp v 0 100, rootStructural := clamp w 0 100 } } := by
  obtain ⟨h1, h2, h3, h4, h5, h6, h7, h8, -, h10, -, hrest⟩ := h
  exact ⟨h1, h2, h3, h4, h5, h6, h7, h8, ⟨clamp01_lb _, clamp01_ub _⟩, h10,
    ⟨clamp01_lb _, clamp01_ub _⟩, hrest⟩

theorem inRange_rootsStructClamp (gs : GameState) (u v w : ℚ) (h : InRange gs) :
    InRange { gs with plant := { gs.plant with
      rootStructural := clamp u 0 100, rootSpread := clamp v 0 100,
      rootDepth := clamp w 0 100 } } := by
  obtain ⟨h1, h2, h3, h4, h5, h6, h7, h8, -, -, -, hrest⟩ := h
  exact ⟨h1, h2, h3, h4, h5, h6, h7, h8, ⟨clamp01_lb _, clamp01_ub _⟩,
    ⟨clamp01_lb _, clamp01_ub _⟩, ⟨clamp01_lb _, clamp01_ub _⟩, hrest⟩

theorem inRange_rootsSurfaceClamp (gs : GameState) (v w : ℚ) (h : InRange gs) :
    InRange { gs with plant := { gs.plant with
      rootSpread := clamp v 0 100, rootDepth := clamp w 0 100 } } := by
  obtain ⟨h1, h2, h3, h4, h5, h6, h7, h8, -, -, h11, hrest⟩ := h
  exact ⟨h1, h2, h3, h4, h5, h6, h7, h8, ⟨clamp01_lb _, clamp01_ub _⟩,
    ⟨clamp01_lb _, clamp01_ub _⟩, h11, hrest⟩

theorem inRange_trunkClamp (gs : GameState) (v w : ℚ) (h : InRange gs) :
    InRange { gs with plant := { gs.plant with
      trunkHeight := clamp v 0 100, trunkGirth := clamp w 0 100 } } := by
  obtain ⟨h1, h2, h3, h4, h5, h6, h7, h8, h9, h10, h11, -, -, hrest⟩ := h
  exact ⟨h1, h2, h3, h4, h5, h6, h7, h8, h9, h10, h11, ⟨clamp01_lb _, clamp01_ub _⟩,
    ⟨clamp01_lb _, clamp01_ub _⟩, hrest⟩

theorem inRange_branchesClamp (gs : GameState) (v w : ℚ) (h : InRange gs) :
    InRange { gs with plant := { gs.plant with
      branchCount := clamp v 0 100, branchLength := clamp w 0 100 } } := by
  obtain ⟨h1, h2, h3, h4, h5, h6, h7, h8, h9, h10, h11, h12, h13, -, -, hrest⟩ := h
  exact ⟨h1, h2, h3, h4, h5, h6, h7, h8, h9, h10, h11, h12, h13,
    ⟨clamp01_lb _, clamp01_ub _⟩, ⟨clamp01_lb _, clamp01_ub _⟩, hrest⟩

-- Stage lemmas.

theorem inRange_stomataLogStep (gs : GameState) (h : InRange gs) :
    InRange (stomataLogStep gs) :=
  inRange_ite (inRange_addLog _ _ _ h) (inRange_ite (inRange_addLog _ _ _ h) h)

theorem inRange_updateStomata (gs : GameState) (h : InRange gs) :
    InRange (updateStomata gs) :=
  inRange_stomataLogStep _ (inRange_setStomata gs _ h)

theorem inRange_stomataStage (gs : GameState) (h : InRange gs) :
    InRange (stomataStage gs) :=
  inRange_ite (inRange_updateStomata _ h) (inRange_setStomata gs _ h)

theorem inRange_cavitationStep (gs : GameState) (h : InRange gs) :
    InRange (cavitationStep gs) :=
  inRange_ite (inRange_ite (inRange_ite
      (inRange_addLog _ _ _ (inRange_setCavEvents _ _ (inRange_setXylem gs _ h)))
      (inRange_setCavEvents _ _ (inRange_setXylem gs _ h)))
    (inRange_setXylem gs _ h)) h

theorem inRange_xylemRecoveryStep (gs : GameState) (h : InRange gs) :
    InRange (xylemRecoveryStep gs) :=
  inRange_ite (inRange_setXylem gs _ h) h

theorem inRange_updateHydraulics (gs : GameState) (h : InRange gs) :
    InRange (updateHydraulics gs) :=
  inRange_xylemRecoveryStep _ (inRange_cavitationStep _ h)

theorem inRange_hydraulicsStage (gs : GameState) (h : InRange gs) :
    InRange (hydraulicsStage gs) :=
  inRange_ite (inRange_updateHydraulics _ h) (inRange_setXylem gs _ h)

theorem inRange_computeResourceFlows (t : Ticket) (gs : GameState) (h : InRange gs) :
    InRange (computeResourceFlows t gs) := by
  obtain ⟨-, -, -, -, -, -, -, hrest⟩ := h
  exact ⟨⟨clamp01_lb _, clamp01_ub _⟩, ⟨clamp01_lb _, clamp01_ub _⟩,
    ⟨clamp01_lb _, clamp01_ub _⟩, ⟨clamp01_lb _, clamp01_ub _⟩,
    ⟨clamp01_lb _, clamp01_ub _⟩, ⟨clamp01_lb _, clamp01_ub _⟩,
    ⟨clamp01_lb _, clamp01_ub _⟩, hrest⟩

theorem inRange_applyGrowth (gs : GameState) (h : InRange gs) :
    InRange (applyGrowth gs) := by
  unfold applyGrowth
  cases ha : gs.activeAction with
  | none => exact h
  | some a =>
    cases a with
    | roots =>
      refine inRange_ite h (inRange_ite h ?_)
      cases hr : gs.rootType with
      | surface => exact inRange_rootsSurfaceClamp _ _ _ h
      | taproot => exact inRange_rootsTapClamp _ _ _ h
      | structural => exact inRange_rootsStructClamp _ _ _ _ h
    | trunk =>
      exact inRange_ite h (inRange_ite h (inRange_ite h (inRange_trunkClamp _ _ _ h)))
    | branches =>
      exact inRange_ite h (inRange_ite h (inRange_ite h (inRange_branchesClamp _ _ _ h)))
    | leaves =>
      exact inRange_ite h (inRange_ite h (inRange_ite h (inRange_setLeafMassClamp _ _ h)))

theorem inRange_updateRootGraph (t : Ticket) (gs : GameState) (h : InRange gs) :
    InRange (updateRootGraph t gs) := h

theorem inRange_seedBaseNode (t : Ticket) (gs : GameState) (h : InRange gs) :
    InRange (seedBaseNode t gs) :=
  inRange_ite (inRange_addLog _ _ _ (inRange_setNodes gs _ _ h)) h

theorem inRange_unlockTrunkStep (gs : GameState) (h : InRange gs) :
    InRange (unlockTrunkStep gs) :=
  inRange_ite (inRange_addLog _ _ _ (inRange_setUnlocked gs _ h)) h

theorem inRange_trunkHintStep (gs : GameState) (h : InRange gs) :
    InRange (trunkHintStep gs) :=
  inRange_ite (inRange_addLog _ _ _ h) h

theorem inRange_unlockLeavesStep (gs : GameState) (h : InRange gs) :
    InRange (unlockLeavesStep gs) :=
  inRange_ite (inRange_addLog _ _ _ (inRange_setUnlocked gs _ h)) h

theorem inRange_unlockBranchesStep (gs : GameState) (h : InRange gs) :
    InRange (unlockBranchesStep gs) :=
  inRange_ite (inRange_addLog _ _ _ (inRange_setUnlocked gs _ h)) h

theorem inRange_checkUnlocks (gs : GameState) (h : InRange gs) :
    InRange (checkUnlocks gs) :=
  inRange_unlockBranchesStep _ (inRange_unlockLeavesStep _
    (inRange_trunkHintStep _ (inRange_unlockTrunkStep _ h)))

theorem inRange_tempStressLogStep (t : Ticket) (gs : GameState) (h : InRange gs) :
    InRange (tempStressLogStep t gs) :=
  inRange_ite (inRange_addLog _ _ _ h) h

theorem inRange_healthSetStep (t : Ticket) (gs : GameState) (h : InRange gs) :
    InRange (healthSetStep t gs) :=
  inRange_ite (inRange_setHealthClamp gs _ h) (inRange_setHealthClamp gs _ h)

theorem inRange_healthWarnStep (gs : GameState) (h : InRange gs) :
    InRange (healthWarnStep gs) :=
  inRange_ite (inRange_addLog _ _ _ h) h

theorem inRange_updateHealth (t : Ticket) (gs : GameState) (h : InRange gs) :
    InRange (updateHealth t gs) :=
  inRange_healthWarnStep _ (inRange_healthSetStep t _ (inRange_tempStressLogStep t _ h))

theorem inRange_wrongSeasonStep (gs : GameState) (h : InRange gs) :
    InRange (wrongSeasonStep gs) :=
  inRange_ite (inRange_setFlowerProgressClamp gs _ h) h

theorem inRange_floweringProgressStep (gs : GameState) (h : InRange gs) :
    InRange (floweringProgressStep gs) :=
  inRange_ite (inRange_ite
    (inRange_addLog _ _ _ (inRange_setFloweringFlag _ _ (inRange_setFlowerEnergy gs _ _ h)))
    (inRange_setFlowerEnergy gs _ _ h)) h

theorem inRange_pollinationStep (t : Ticket) (gs : GameState) (h : InRange gs) :
    InRange (pollinationStep t gs) :=
  inRange_ite (inRange_ite
    (inRange_resetFlower _ _ _ (inRange_addLog _ _ _ (inRange_setPollinated gs _ _ h)))
    h) h

theorem inRange_updateFlowering (t : Ticket) (gs : GameState) (h : InRange gs) :
    InRange (updateFlowering t gs) :=
  inRange_ite h (inRange_ite (inRange_wrongSeasonStep _ h)
    (inRange_pollinationStep t _ (inRange_floweringProgressStep _ h)))

theorem inRange_floweringStage (t : Ticket) (gs : GameState) (h : InRange gs) :
    InRange (floweringStage t gs) :=
  inRange_ite (inRange_updateFlowering t _ h) h

theorem inRange_annualDeathStep (gs : GameState) (h : InRange gs) :
    InRange (annualDeathStep gs) :=
  inRange_ite (inRange_ite
    (inRange_addLog _ _ _ (inRange_addLog _ _ _ (inRange_setLifePause gs _ _ h))) h) h

theorem inRange_perennialDormancyStep (gs : GameState) (h : InRange gs) :
    InRange (perennialDormancyStep gs) :=
  inRange_ite
    (inRange_ite
      (inRange_ite
        (inRange_ite
          (inRange_addLog _ _ _ (inRange_setLeafMassClamp _ _
            (inRange_addLog _ _ _ (inRange_setDormant _ true
              (inRange_setDormancyDepth gs _ h)))))
          (inRange_setLeafMassClamp _ _
            (inRange_addLog _ _ _ (inRange_setDormant _ true
              (inRange_setDormancyDepth gs _ h)))))
        (inRange_setDormancyDepth gs _ h))
      (inRange_ite
        (inRange_ite
          (inRange_addLog _ _ _ (inRange_setDormant _ false
            (inRange_setDormancyDepth gs _ h)))
          (inRange_setDormancyDepth gs _ h))
        (inRange_ite
          (inRange_ite
            (inRange_setDormant _ false (inRange_setDormancyDepth gs _ h))
            (inRange_setDormancyDepth gs _ h))
          h)))
    h

theorem inRange_updateLifeCycle (gs : GameState) (h : InRange gs) :
    InRange (updateLifeCycle gs) :=
  inRange_perennialDormancyStep _ (inRange_annualDeathStep _ h)

theorem inRange_lifeCycleStage (gs : GameState) (h : InRange gs) :
    InRange (lifeCycleStage gs) :=
  inRange_ite (inRange_updateLifeCycle _ h) h

theorem inRange_cambiumGirthStep (gs : GameState) (h : InRange gs) :
    InRange (cambiumGirthStep gs) :=
  inRange_setTrunkGirthClamp gs _ h

theorem inRange_phloemStarvationStep (gs : GameState) (h : InRange gs) :
    InRange (phloemStarvationStep gs) :=
  inRange_ite (inRange_ite
      (inRange_addLog _ _ _ (inRange_setRootSpreadStructClamp gs _ _ h))
      (inRange_setRootSpreadStructClamp gs _ _ h)) h

theorem inRange_updateCambium (gs : GameState) (h : InRange gs) :
    InRange (updateCambium gs) :=
  inRange_ite h (inRange_ite h (inRange_setGrowthRings _ _
    (inRange_phloemStarvationStep _ (inRange_cambiumGirthStep _ h))))

theorem inRange_cambiumStage (gs : GameState) (h : InRange gs) :
    InRange (cambiumStage gs) :=
  inRange_ite (inRange_updateCambium _ h) h

theorem inRange_colonisationStep (gs : GameState) (h : InRange gs) :
    InRange (colonisationStep gs) :=
  inRange_ite (inRange_ite
      (inRange_addLog _ _ _ (inRange_ite
        (inRange_addLog _ _ _ (inRange_setColonisation gs _ h))
        (inRange_setColonisation gs _ h)))
      (inRange_ite
        (inRange_addLog _ _ _ (inRange_setColonisation gs _ h))
        (inRange_setColonisation gs _ h))) h

theorem inRange_mycoCostBonusStep (gs : GameState) (h : InRange gs) :
    InRange (mycoCostBonusStep gs) :=
  inRange_setMycoBonus _ _ (inRange_setEnergyClamp gs _ h)

theorem inRange_mycoDegradeStep (gs : GameState) (h : InRange gs) :
    InRange (mycoDegradeStep gs) :=
  inRange_ite (inRange_setColonisation gs _ h) h

theorem inRange_updateMycorrhizae (gs : GameState) (h : InRange gs) :
    InRange (updateMycorrhizae gs) :=
  inRange_ite h (inRange_mycoDegradeStep _ (inRange_mycoCostBonusStep _
    (inRange_colonisationStep _ h)))

theorem inRange_mycorrhizaeStage (gs : GameState) (h : InRange gs) :
    InRange (mycorrhizaeStage gs) :=
  inRange_ite (inRange_updateMycorrhizae _ h) h

theorem inRange_herbStartStep (t : Ticket) (gs : GameState) (h : InRange gs) :
    InRange (herbStartStep t gs) :=
  inRange_ite (inRange_ite
      (inRange_ite
        (inRange_setHerbPressure _ _ (inRange_ite
          (inRange_addLog _ _ _ (inRange_setHerbEvent gs _ _ h))
          (inRange_addLog _ _ _ (inRange_setHerbEvent gs _ _ h))))
        (inRange_ite
          (inRange_addLog _ _ _ (inRange_setHerbEvent gs _ _ h))
          (inRange_addLog _ _ _ (inRange_setHerbEvent gs _ _ h))))
      h) h

theorem inRange_herbDamageStep (gs : GameState) (h : InRange gs) :
    InRange (herbDamageStep gs) :=
  inRange_ite
    (inRange_ite
      (inRange_addLog _ _ _ (inRange_setHerbEvent _ _ _ (inRange_setHerbPressure _ _
        (inRange_setHealthClamp _ _ (inRange_setEnergyClamp _ _
          (inRange_ite
            (inRange_ite
              (inRange_addLog _ _ _ (inRange_setScarred _ _
                (inRange_setTrunkGirthClamp _ _ (inRange_setLeafDamagedClamp gs _ _ h))))
              (inRange_setTrunkGirthClamp _ _ (inRange_setLeafDamagedClamp gs _ _ h)))
            (inRange_setLeafDamagedClamp gs _ _ h)))))))
      (inRange_setHerbPressure _ _
        (inRange_setHealthClamp _ _ (inRange_setEnergyClamp _ _
          (inRange_ite
            (inRange_ite
              (inRange_addLog _ _ _ (inRange_setScarred _ _
                (inRange_setTrunkGirthClamp _ _ (inRange_setLeafDamagedClamp gs _ _ h))))
              (inRange_setTrunkGirthClamp _ _ (inRange_setLeafDamagedClamp gs _ _ h)))
            (inRange_setLeafDamagedClamp gs _ _ h))))))
    h

theorem inRange_updateHerbivory (t : Ticket) (gs : GameState) (h : InRange gs) :
    InRange (updateHerbivory t gs) :=
  inRange_herbDamageStep _ (inRange_herbStartStep t _ h)

theorem inRange_herbivoryStage (t : Ticket) (gs : GameState) (h : InRange gs) :
    InRange (herbivoryStage t gs) :=
  inRange_ite (inRange_updateHerbivory t _ h) h

theorem inRange_droughtStep (gs : GameState) (h : InRange gs) :
    InRange (droughtStep gs) :=
  inRange_ite (inRange_addLog _ _ _ (inRange_setEnv gs _ h)) (inRange_setEnv gs _ h)

theorem inRange_floodStep (gs : GameState) (h : InRange gs) :
    InRange (floodStep gs) :=
  inRange_ite
    (inRange_addLog _ _ _ (inRange_ite
      (inRange_setRootSpreadStructClamp _ _ _ (inRange_flood gs _ h))
      (inRange_flood gs _ h)))
    (inRange_ite
      (inRange_setRootSpreadStructClamp _ _ _ (inRange_flood gs _ h))
      (inRange_flood gs _ h))

theorem inRange_stormStep (gs : GameState) (h : InRange gs) :
    InRange (stormStep gs) :=
  inRange_ite
    (inRange_addLog _ _ _ (inRange_ite (inRange_setBranchLeafClamp gs _ _ h) h))
    (inRange_ite (inRange_setBranchLeafClamp gs _ _ h) h)

theorem inRange_weatherEndStep (ev : Weather) (gs : GameState) (h : InRange gs) :
    InRange (weatherEndStep ev gs) :=
  inRange_ite (inRange_addLog _ _ _ (inRange_setWeather gs _ _ h)) h

theorem inRange_weatherActiveStep (ev : Weather) (gs : GameState) (h : InRange gs) :
    InRange (weatherActiveStep ev gs) := by
  cases ev with
  | drought =>
    exact inRange_weatherEndStep _ _ (inRange_droughtStep _ (inRange_setTimer gs _ h))
  | flood =>
    exact inRange_weatherEndStep _ _ (inRange_floodStep _ (inRange_setTimer gs _ h))
  | storm =>
    exact inRange_weatherEndStep _ _ (inRange_stormStep _ (inRange_setTimer gs _ h))

theorem inRange_weatherStartStep (t : Ticket) (gs : GameState) (h : InRange gs) :
    InRange (weatherStartStep t gs) :=
  inRange_ite h (inRange_ite h (inRange_ite h
    (inRange_addLog _ _ _ (inRange_setWeatherStart gs _ _ _ h))))

theorem inRange_updateWeatherEvents (t : Ticket) (gs : GameState) (h : InRange gs) :
    InRange (updateWeatherEvents t gs) := by
  unfold updateWeatherEvents
  cases hev : gs.activeWeatherEvent with
  | none => exact inRange_weatherStartStep t _ h
  | some ev => exact inRange_weatherActiveStep ev _ h

theorem inRange_weatherStage (t : Ticket) (gs : GameState) (h : InRange gs) :
    InRange (weatherStage t gs) :=
  inRange_ite (inRange_updateWeatherEvents t _ h) h

-- ══════════════════════════════════════════════════════════
-- Frame lemmas: fields a pipeline stage leaves unchanged
-- ══════════════════════════════════════════════════════════
theorem frame8_addLog {a : GameState} (gs : GameState) (m ty : String)
    (h : Frame8 a gs) : Frame8 a (addLog gs m ty) := h

theorem frame8_refl (gs : GameState) : Frame8 gs gs :=
  ⟨rfl, rfl, rfl, rfl, rfl, rfl, rfl, rfl⟩

theorem frame8_trans {a b c : GameState} (h1 : Frame8 a b) (h2 : Frame8 b c) :
    Frame8 a c :=
  ⟨h2.1.trans h1.1, h2.2.1.trans h1.2.1, h2.2.2.1.trans h1.2.2.1,
   h2.2.2.2.1.trans h1.2.2.2.1, h2.2.2.2.2.1.trans h1.2.2.2.2.1,
   h2.2.2.2.2.2.1.trans h1.2.2.2.2.2.1,
   h2.2.2.2.2.2.2.1.trans h1.2.2.2.2.2.2.1,
   h2.2.2.2.2.2.2.2.trans h1.2.2.2.2.2.2.2⟩

theorem frame8_ite {c : Prop} [Decidable c] {a x y : GameState}
    (hx : Frame8 a x) (hy : Frame8 a y) : Frame8 a (if c then x else y) := by
  split
  · exact hx
  · exact hy

theorem frame6_refl (gs : GameState) : Frame6 gs gs := ⟨rfl, rfl, rfl, rfl, rfl, rfl⟩

theorem frame6_trans {a b c : GameState} (h1 : Frame6 a b) (h2 : Frame6 b c) :
    Frame6 a c :=
  ⟨h2.1.trans h1.1, h2.2.1.trans h1.2.1, h2.2.2.1.trans h1.2.2.1,
   h2.2.2.2.1.trans h1.2.2.2.1, h2.2.2.2.2.1.trans h1.2.2.2.2.1,
   h2.2.2.2.2.2.trans h1.2.2.2.2.2⟩

theorem frame6_ite {c : Prop} [Decidable c] {a x y : GameState}
    (hx : Frame6 a x) (hy : Frame6 a y) : Frame6 a (if c then x else y) := by
  split
  · exact hx
  · exact hy

theorem frame6_of_frame8 {a b : GameState} (h : Frame8 a b) : Frame6 a b :=
  ⟨h.1, h.2.1, h.2.2.1, h.2.2.2.1, h.2.2.2.2.1, h.2.2.2.2.2.1⟩

theorem frame8_stomataLogStep {a : GameState} (gs : GameState) (h : Frame8 a gs) :
    Frame8 a (stomataLogStep gs) := by
  simp only [stomataLogStep, addLog]
  split_ifs <;> exact h

theorem frame8_cavitationStep {a : GameState} (gs : GameState) (h : Frame8 a gs) :
    Frame8 a (cavitationStep gs) := by
  simp only [cavitationStep, addLog]
  split_ifs <;> exact h

theorem frame8_xylemRecoveryStep {a : GameState} (gs : GameState) (h : Frame8 a gs) :
    Frame8 a (xylemRecoveryStep gs) := by
  simp only [xylemRecoveryStep, addLog]
  split_ifs <;> exact h

theorem frame8_unlockTrunkStep {a : GameState} (gs : GameState) (h : Frame8 a gs) :
    Frame8 a (unlockTrunkStep gs) := by
  simp only [unlockTrunkStep, addLog]
  split_ifs <;> exact h

theorem frame8_trunkHintStep {a : GameState} (gs : GameState) (h : Frame8 a gs) :
    Frame8 a (trunkHintStep gs) := by
  simp only [trunkHintStep, addLog]
  split_ifs <;> exact h

theorem frame8_unlockLeavesStep {a : GameState} (gs : GameState) (h : Frame8 a gs) :
    Frame8 a (unlockLeavesStep gs) := by
  simp only [unlockLeavesStep, addLog]
  split_ifs <;> exact h

theorem frame8_unlockBranchesStep {a : GameState} (gs : GameState) (h : Frame8 a gs) :
    Frame8 a (unlockBranchesStep gs) := by
  simp only [unlockBranchesStep, addLog]
  split_ifs <;> exact h

theorem frame8_healthWarnStep {a : GameState} (gs : GameState) (h : Frame8 a gs) :
    Frame8 a (healthWarnStep gs) := by
  simp only [healthWarnStep, addLog]
  split_ifs <;> exact h

theorem frame8_wrongSeasonStep {a : GameState} (gs : GameState) (h : Frame8 a gs) :
    Frame8 a (wrongSeasonStep gs) := by
  simp only [wrongSeasonStep, addLog]
  split_ifs <;> exact h

theorem frame8_floweringProgressStep {a : GameState} (gs : GameState) (h : Frame8 a gs) :
    Frame8 a (floweringProgressStep gs) := by
  simp only [floweringProgressStep, addLog]
  split_ifs <;> exact h

theorem frame8_perennialDormancyStep {a : GameState} (gs : GameState) (h : Frame8 a gs) :
    Frame8 a (perennialDormancyStep gs) := by
  simp only [perennialDormancyStep, addLog]
  split_ifs <;> exact h

theorem frame8_cambiumGirthStep {a : GameState} (gs : GameState) (h : Frame8 a gs) :
    Frame8 a (cambiumGirthStep gs) := h

theorem frame8_phloemStarvationStep {a : GameState} (gs : GameState) (h : Frame8 a gs) :
    Frame8 a (phloemStarvationStep gs) := by
  simp only [phloemStarvationStep, addLog]
  split_ifs <;> exact h

theorem frame8_colonisationStep {a : GameState} (gs : GameState) (h : Frame8 a gs) :
    Frame8 a (colonisationStep gs) := by
  simp only [colonisationStep, addLog]
  split_ifs <;> exact h

theorem frame8_mycoCostBonusStep {a : GameState} (gs : GameState) (h : Frame8 a gs) :
    Frame8 a (mycoCostBonusStep gs) := h

theorem frame8_mycoDegradeStep {a : GameState} (gs : GameState) (h : Frame8 a gs) :
    Frame8 a (mycoDegradeStep gs) := by
  simp only [mycoDegradeStep, addLog]
  split_ifs <;> exact h

theorem frame8_herbDamageStep {a : GameState} (gs : GameState) (h : Frame8 a gs) :
    Frame8 a (herbDamageStep gs) := by
  simp only [herbDamageStep, addLog]
  split_ifs <;> exact h

theorem frame8_droughtStep {a : GameState} (gs : GameState) (h : Frame8 a gs) :
    Frame8 a (droughtStep gs) := by
  simp only [droughtStep, addLog]
  split_ifs <;> exact h

theorem frame8_floodStep {a : GameState} (gs : GameState) (h : Frame8 a gs) :
    Frame8 a (floodStep gs) := by
  simp only [floodStep, addLog]
  split_ifs <;> exact h

theorem frame8_stormStep {a : GameState} (gs : GameState) (h : Frame8 a gs) :
    Frame8 a (stormStep gs) := by
  simp only [stormStep, addLog]
  split_ifs <;> exact h

theorem frame8_tempStressLogStep {a : GameState} (t : Ticket) (gs : GameState) (h : Frame8 a gs) :
    Frame8 a (tempStressLogStep t gs) := by
  simp only [tempStressLogStep, addLog]
  split_ifs <;> exact h

theorem frame8_healthSetStep {a : GameState} (t : Ticket) (gs : GameState) (h : Frame8 a gs) :
    Frame8 a (healthSetStep t gs) := by
  simp only [healthSetStep, addLog]
  split_ifs <;> exact h

theorem frame8_pollinationStep {a : GameState} (t : Ticket) (gs : GameState) (h : Frame8 a gs) :
    Frame8 a (pollinationStep t gs) := by
  simp only [pollinationStep, addLog]
  split_ifs <;> exact h

theorem frame8_herbStartStep {a : GameState} (t : Ticket) (gs : GameState) (h : Frame8 a gs) :
    Frame8 a (herbStartStep t gs) := by
  simp only [herbStartStep, addLog]
  split_ifs <;> exact h

theorem frame8_weatherStartStep {a : GameState} (t : Ticket) (gs : GameState) (h : Frame8 a gs) :
    Frame8 a (weatherStartStep t gs) :=
  frame8_ite h (frame8_ite h (frame8_ite h (frame8_addLog _ _ _ h)))

theorem frame8_seedBaseNode {a : GameState} (t : Ticket) (gs : GameState) (h : Frame8 a gs) :
    Frame8 a (seedBaseNode t gs) := by
  simp only [seedBaseNode, addLog]
  split_ifs <;> exact h

theorem frame8_weatherEndStep {a : GameState} (ev : Weather) (gs : GameState)
    (h : Frame8 a gs) : Frame8 a (weatherEndStep ev gs) := by
  simp only [weatherEndStep, addLog]
  split_ifs <;> exact h

theorem frame8_updateEnvironment {a : GameState} (t : Ticket) (gs : GameState)
    (h : Frame8 a gs) : Frame8 a (updateEnvironment t gs) := h

theorem frame8_computeResourceFlows {a : GameState} (t : Ticket) (gs : GameState)
    (h : Frame8 a gs) : Frame8 a (computeResourceFlows t gs) := h

theorem frame8_updateRootGraph {a : GameState} (t : Ticket) (gs : GameState)
    (h : Frame8 a gs) : Frame8 a (updateRootGraph t gs) := h

theorem frame8_applyGrowth {a : GameState} (gs : GameState) (h : Frame8 a gs) :
    Frame8 a (applyGrowth gs) := by
  unfold applyGrowth
  cases ha : gs.activeAction with
  | none => exact h
  | some act =>
    cases act with
    | roots =>
      refine frame8_ite h (frame8_ite h ?_)
      cases hr : gs.rootType <;> exact h
    | trunk => exact frame8_ite h (frame8_ite h (frame8_ite h h))
    | branches => exact frame8_ite h (frame8_ite h (frame8_ite h h))
    | leaves => exact frame8_ite h (frame8_ite h (frame8_ite h h))

theorem frame8_updateStomata {a : GameState} (gs : GameState) (h : Frame8 a gs) :
    Frame8 a (updateStomata gs) :=
  frame8_stomataLogStep _ h

theorem frame8_stomataStage {a : GameState} (gs : GameState) (h : Frame8 a gs) :
    Frame8 a (stomataStage gs) :=
  frame8_ite (frame8_updateStomata _ h) h

theorem frame8_updateHydraulics {a : GameState} (gs : GameState) (h : Frame8 a gs) :
    Frame8 a (updateHydraulics gs) :=
  frame8_xylemRecoveryStep _ (frame8_cavitationStep _ h)

theorem frame8_hydraulicsStage {a : GameState} (gs : GameState) (h : Frame8 a gs) :
    Frame8 a (hydraulicsStage gs) :=
  frame8_ite (frame8_updateHydraulics _ h) h

theorem frame8_checkUnlocks {a : GameState} (gs : GameState) (h : Frame8 a gs) :
    Frame8 a (checkUnlocks gs) :=
  frame8_unlockBranchesStep _ (frame8_unlockLeavesStep _
    (frame8_trunkHintStep _ (frame8_unlockTrunkStep _ h)))

theorem frame8_updateHealth {a : GameState} (t : Ticket) (gs : GameState)
    (h : Frame8 a gs) : Frame8 a (updateHealth t gs) :=
  frame8_healthWarnStep _ (frame8_healthSetStep t _ (frame8_tempStressLogStep t _ h))

theorem frame8_updateFlowering {a : GameState} (t : Ticket) (gs : GameState)
    (h : Frame8 a gs) : Frame8 a (updateFlowering t gs) :=
  frame8_ite h (frame8_ite (frame8_wrongSeasonStep _ h)
    (frame8_pollinationStep t _ (frame8_floweringProgressStep _ h)))

theorem frame8_floweringStage {a : GameState} (t : Ticket) (gs : GameState)
    (h : Frame8 a gs) : Frame8 a (floweringStage t gs) :=
  frame8_ite (frame8_updateFlowering t _ h) h

theorem frame8_updateCambium {a : GameState} (gs : GameState) (h : Frame8 a gs) :
    Frame8 a (updateCambium gs) :=
  frame8_ite h (frame8_ite h
    (frame8_phloemStarvationStep _ (frame8_cambiumGirthStep _ h)))

theorem frame8_cambiumStage {a : GameState} (gs : GameState) (h : Frame8 a gs) :
    Frame8 a (cambiumStage gs) :=
  frame8_ite (frame8_updateCambium _ h) h

theorem frame8_updateMycorrhizae {a : GameState} (gs : GameState) (h : Frame8 a gs) :
    Frame8 a (updateMycorrhizae gs) :=
  frame8_ite h (frame8_mycoDegradeStep _ (frame8_mycoCostBonusStep _
    (frame8_colonisationStep _ h)))

theorem frame8_mycorrhizaeStage {a : GameState} (gs : GameState) (h : Frame8 a gs) :
    Frame8 a (mycorrhizaeStage gs) :=
  frame8_ite (frame8_updateMycorrhizae _ h) h

theorem frame8_updateHerbivory {a : GameState} (t : Ticket) (gs : GameState)
    (h : Frame8 a gs) : Frame8 a (updateHerbivory t gs) :=
  frame8_herbDamageStep _ (frame8_herbStartStep t _ h)

theorem frame8_herbivoryStage {a : GameState} (t : Ticket) (gs : GameState)
    (h : Frame8 a gs) : Frame8 a (herbivoryStage t gs) :=
  frame8_ite (frame8_updateHerbivory t _ h) h

theorem frame8_weatherActiveStep {a : GameState} (ev : Weather) (gs : GameState)
    (h : Frame8 a gs) : Frame8 a (weatherActiveStep ev gs) := by
  cases ev with
  | drought => exact frame8_weatherEndStep _ _ (frame8_droughtStep _ h)
  | flood => exact frame8_weatherEndStep _ _ (frame8_floodStep _ h)
  | storm => exact frame8_weatherEndStep _ _ (frame8_stormStep _ h)

theorem frame8_updateWeatherEvents {a : GameState} (t : Ticket) (gs : GameState)
    (h : Frame8 a gs) : Frame8 a (updateWeatherEvents t gs) := by
  unfold updateWeatherEvents
  cases hev : gs.activeWeatherEvent with
  | none => exact frame8_weatherStartStep t _ h
  | some ev => exact frame8_weatherActiveStep ev _ h

theorem frame8_weatherStage {a : GameState} (t : Ticket) (gs : GameState)
    (h : Frame8 a gs) : Frame8 a (weatherStage t gs) :=
  frame8_ite (frame8_updateWeatherEvents t _ h) h

theorem frame6_annualDeathStep {a : GameState} (gs : GameState) (h : Frame6 a gs) :
    Frame6 a (annualDeathStep gs) := by
  simp only [annualDeathStep, addLog]
  split_ifs <;> exact h

theorem frame6_updateLifeCycle (gs : GameState) : Frame6 gs (updateLifeCycle gs) :=
  frame6_trans (frame6_annualDeathStep gs (frame6_refl gs))
    (frame6_of_frame8 (frame8_perennialDormancyStep _ (frame8_refl _)))

theorem frame6_lifeCycleStage (gs : GameState) : Frame6 gs (lifeCycleStage gs) :=
  frame6_ite (frame6_updateLifeCycle gs) (frame6_refl gs)

-- ── Tick-level composition ────────────────────────────────

theorem frame8_preLifeState (t : Ticket) (gs : GameState) :
    Frame8 (tickHeader gs) (preLifeState t gs) :=
  frame8_floweringStage t _ (frame8_updateHealth t _ (frame8_checkUnlocks _
    (frame8_seedBaseNode t _ (frame8_updateRootGraph t _ (frame8_applyGrowth _
      (frame8_computeResourceFlows t _ (frame8_hydraulicsStage _ (frame8_stomataStage _
        (frame8_updateEnvironment t _ (frame8_refl (tickHeader gs)))))))))))

theorem frame8_tickTailOfLife (t : Ticket) (gs : GameState) :
    Frame8 (lifeCycleStage (preLifeState t gs)) (simulateTick t gs) :=
  frame8_weatherStage t _ (frame8_herbivoryStage t _ (frame8_mycorrhizaeStage _
    (frame8_cambiumStage _ (frame8_refl (lifeCycleStage (preLifeState t gs))))))

theorem frame6_simulateTick (t : Ticket) (gs : GameState) :
    Frame6 (tickHeader gs) (simulateTick t gs) :=
  frame6_trans
    (frame6_trans (frame6_of_frame8 (frame8_preLifeState t gs))
      (frame6_lifeCycleStage (preLifeState t gs)))
    (frame6_of_frame8 (frame8_tickTailOfLife t gs))

theorem flower_simulateTick (t : Ticket) (gs : GameState) :
    (simulateTick t gs).unlocked.flower = gs.unlocked.flower :=
  ((frame6_simulateTick t gs).2.2.2.2.2).trans rfl

theorem frame6_commitPlacement (gs : GameState) (c : Candidate) (ty : NodeType) :
    Frame6 gs (commitPlacement gs c ty) := by
  unfold commitPlacement
  cases hf : gs.plant.nodes.find? (fun n => n.id = c.parentNodeId) with
  | none => exact frame6_refl gs
  | some p => split_ifs <;> exact ⟨rfl, rfl, rfl, rfl, rfl, rfl⟩

theorem flower_foldl (ops : List Op) : ∀ gs : GameState,
    gs.unlocked.flower = false → (ops.foldl applyOp gs).unlocked.flower = false := by
  induction ops with
  | nil => intro gs h; exact h
  | cons op rest ih =>
    intro gs h
    rw [List.foldl_cons]
    apply ih
    cases op with
    | tick t => exact (flower_simulateTick t gs).trans h
    | commit c ty => exact ((frame6_commitPlacement gs c ty).2.2.2.2.2).trans h

-- ── Life-cycle behaviour lemmas ───────────────────────────

theorem annualDeathStep_seed (gs : GameState) : (annualDeathStep gs).seed = gs.seed := by
  simp only [annualDeathStep]
  split_ifs <;> rfl

theorem perennialDormancyStep_annual (gs : GameState)
    (h : gs.seed.lifespan = .annual) : perennialDormancyStep gs = gs := by
  simp only [perennialDormancyStep]
  rw [if_neg (by simp [h])]

theorem updateLifeCycle_annual (gs : GameState) (hann : gs.seed.lifespan = .annual) :
    updateLifeCycle gs = annualDeathStep gs := by
  show perennialDormancyStep (annualDeathStep gs) = _
  rw [perennialDormancyStep_annual _ (by rw [annualDeathStep_seed]; exact hann)]

theorem annualDeathStep_sets (gs : GameState) (hann : gs.seed.lifespan = .annual)
    (hlc : gs.lifeComplete = false) (hc : annualDeathCond gs) :
    (annualDeathStep gs).lifeComplete = true ∧ (annualDeathStep gs).paused = true := by
  simp only [annualDeathStep]
  rw [if_pos ⟨hann, by simp [hlc]⟩, if_pos hc]
  exact ⟨rfl, rfl⟩

theorem annualDeathStep_id_of_not (gs : GameState) (hc : ¬ annualDeathCond gs) :
    annualDeathStep gs = gs := by
  simp only [annualDeathStep]
  by_cases h1 : gs.seed.lifespan = .annual ∧ ¬(gs.lifeComplete = true)
  · rw [if_pos h1, if_neg hc]
  · rw [if_neg h1]

theorem annualDeathStep_id_of_complete (gs : GameState) (h : gs.lifeComplete = true) :
    annualDeathStep gs = gs := by
  simp only [annualDeathStep]
  rw [if_neg (by simp [h])]

theorem lifeComplete_updateLifeCycle_true (gs : GameState)
    (h : gs.lifeComplete = true) : (updateLifeCycle gs).lifeComplete = true := by
  show (perennialDormancyStep (annualDeathStep gs)).lifeComplete = true
  rw [annualDeathStep_id_of_complete gs h,
    (frame8_perennialDormancyStep gs (frame8_refl gs)).2.2.2.2.2.2.1]
  exact h

theorem lifeComplete_lifeCycleStage_true (gs : GameState)
    (h : gs.lifeComplete = true) : (lifeCycleStage gs).lifeComplete = true := by
  simp only [lifeCycleStage]
  split_ifs
  · exact lifeComplete_updateLifeCycle_true gs h
  · exact h

-- ── C8 ────────────────────────────────────────────────────

/-- Claim C8: with the lifeCycles setting enabled, for an annual seed whose
life is not yet complete, (i) `updateLifeCycle` sets `lifeComplete = true`
and `paused = true` exactly when (seedsProduced >= 1 and the season is
autumn (2) or winter (3)) or day > 270; (ii) once `lifeComplete` is true a
tick never resets it; (iii) a tick whose new day exceeds 270 terminates the
annual (`lifeComplete` and `paused` both end the tick true). -/
theorem spec_c8_annual_termination :
    (∀ gs : GameState, gs.seed.lifespan = .annual → gs.lifeComplete = false →
      gs.season ≤ 3 →
      (((updateLifeCycle gs).lifeComplete = true ∧ (updateLifeCycle gs).paused = true) ↔
        ((1 ≤ gs.plant.seedsProduced ∧ (gs.season = 2 ∨ gs.season = 3)) ∨
          270 < gs.day))) ∧
    (∀ (t : Ticket) (gs : GameState), gs.lifeComplete = true →
      (simulateTick t gs).lifeComplete = true) ∧
    (∀ (t : Ticket) (gs : GameState), gs.settings.lifeCycles = true →
      gs.seed.lifespan = .annual → gs.lifeComplete = false →
      270 < (gs.tick + 1) / 10 + 1 →
      (simulateTick t gs).lifeComplete = true ∧ (simulateTick t gs).paused = true) := by
  refine ⟨?_, ?_, ?_⟩
  · intro gs hann hlc hs3
    rw [updateLifeCycle_annual gs hann]
    by_cases hc : annualDeathCond gs
    · have hset := annualDeathStep_sets gs hann hlc hc
      constructor
      · intro _
        rcases hc with ⟨hp, hs⟩ | hd
        · exact Or.inl ⟨by omega, by omega⟩
        · exact Or.inr (by omega)
      · intro _
        exact hset
    · rw [annualDeathStep_id_of_not gs hc]
      constructor
      · intro hcontra
        rw [hlc] at hcontra
        exact absurd hcontra.1 Bool.false_ne_true
      · intro hclaim
        exfalso
        apply hc
        rcases hclaim with ⟨h1, h2⟩ | h3
        · exact Or.inl ⟨by omega, by omega⟩
        · exact Or.inr (by omega)
  · intro t gs h
    have h1 : (preLifeState t gs).lifeComplete = true := by
      rw [(frame8_preLifeState t gs).2.2.2.2.2.2.1]
      exact h
    have h2 : (lifeCycleStage (preLifeState t gs)).lifeComplete = true :=
      lifeComplete_lifeCycleStage_true _ h1
    rw [(frame8_tickTailOfLife t gs).2.2.2.2.2.2.1]
    exact h2
  · intro t gs hset hann hlc hday
    have hfr := frame8_preLifeState t gs
    have hms : (preLifeState t gs).settings = gs.settings := hfr.2.1.trans rfl
    have hmseed : (preLifeState t gs).seed = gs.seed := hfr.1.trans rfl
    have hmlc : (preLifeState t gs).lifeComplete = false := by
      rw [hfr.2.2.2.2.2.2.1]
      exact hlc
    have hmday : 270 < (preLifeState t gs).day := by
      rw [hfr.2.2.1]
      exact hday
    have hlcs : lifeCycleStage (preLifeState t gs) = updateLifeCycle (preLifeState t gs) := by
      simp only [lifeCycleStage]
      rw [if_pos (by rw [hms]; exact hset)]
    have hulc : (updateLifeCycle (preLifeState t gs)).lifeComplete = true ∧
        (updateLifeCycle (preLifeState t gs)).paused = true := by
      rw [updateLifeCycle_annual _ (by rw [hmseed]; exact hann)]
      exact annualDeathStep_sets _ (by rw [hmseed]; exact hann) hmlc (Or.inr hmday)
    have htail := frame8_tickTailOfLife t gs
    constructor
    · rw [htail.2.2.2.2.2.2.1, hlcs]
      exact hulc.1
    · rw [htail.2.2.2.2.2.2.2, hlcs]
      exact hulc.2

/-- Witness for C8: `annualDoneState` (wildflower annual, day 271, no seeds)
is terminated by `updateLifeCycle`, and a tick on `annualTickState`
(tick 2709, so the new day is 272 > 270) terminates and pauses it. -/
theorem spec_c8_annual_termination_witness :
    annualDoneState.seed.lifespan = .annual ∧ annualDoneState.lifeComplete = false ∧
    annualDoneState.season ≤ 3 ∧
    ((1 ≤ annualDoneState.plant.seedsProduced ∧
      (annualDoneState.season = 2 ∨ annualDoneState.season = 3)) ∨
      270 < annualDoneState.day) ∧
    (updateLifeCycle annualDoneState).lifeComplete = true ∧
    (updateLifeCycle annualDoneState).paused = true ∧
    annualTickState.settings.lifeCycles = true ∧
    annualTickState.seed.lifespan = .annual ∧
    annualTickState.lifeComplete = false ∧
    270 < (annualTickState.tick + 1) / 10 + 1 ∧
    (simulateTick ticket0 annualTickState).lifeComplete = true ∧
    (simulateTick ticket0 annualTickState).paused = true := by
  have h1 := (spec_c8_annual_termination.1 annualDoneState rfl rfl (by decide)).mpr
    (Or.inr (by decide))
  have h3 := spec_c8_annual_termination.2.2 ticket0 annualTickState rfl rfl rfl (by decide)
  exact ⟨rfl, rfl, by decide, Or.inr (by decide), h1.1, h1.2, rfl, rfl, rfl, by decide,
    h3.1, h3.2⟩

-- ── C10 ───────────────────────────────────────────────────

/-- Claim C10: the `unlocked.flower` flag is false at creation, no tick and
no placement commit ever changes it, and hence it stays false over every
sequence of core operations of a playthrough. -/
theorem spec_c10_flower_never_unlocked :
    (∀ (b : Biome) (sd : Seed) (st : Settings) (r1 r2 r3 : ℚ),
      (createGameState b sd st r1 r2 r3).unlocked.flower = false) ∧
    (∀ (t : Ticket) (gs : GameState),
      (simulateTick t gs).unlocked.flower = gs.unlocked.flower) ∧
    (∀ (gs : GameState) (c : Candidate) (ty : NodeType),
      (commitPlacement gs c ty).unlocked.flower = gs.unlocked.flower) ∧
    (∀ (b : Biome) (sd : Seed) (st : Settings) (r1 r2 r3 : ℚ) (ops : List Op),
      (ops.foldl applyOp (createGameState b sd st r1 r2 r3)).unlocked.flower = false) :=
  ⟨fun _ _ _ _ _ _ => rfl,
   fun t gs => flower_simulateTick t gs,
   fun gs c ty => (frame6_commitPlacement gs c ty).2.2.2.2.2,
   fun _ _ _ _ _ _ ops => flower_foldl ops _ rfl⟩

-- ══════════════════════════════════════════════════════════
-- Claims
-- ══════════════════════════════════════════════════════════
theorem segPreserved_append_thicken (old added : List RootSeg) (scale : ℚ)
    (hscale : 0 ≤ scale) :
    segPreserved old ((old ++ added).map (thickenSeg scale)) := by
  intro i hi
  have hlen : i < ((old ++ added).map (thickenSeg scale)).length := by
    simp only [List.length_map, List.length_append]
    omega
  have hget : ((old ++ added).map (thickenSeg scale)).get ⟨i, hlen⟩
      = thickenSeg scale (old.get ⟨i, hi⟩) := by
    rw [List.get_map]
    congr 1
    exact List.get_append i hi
  refine ⟨hlen, ?_, ?_⟩
  · rw [hget]
    exact ⟨rfl, rfl, rfl, rfl, rfl, rfl⟩
  · intro hw
    rw [hget]
    constructor
    · exact le_min (by linarith) hw
    · exact min_le_right _ _

theorem growSurfaceArms_spec (t : Ticket) (rs : ℚ) (rg : RootGraph) :
    (∃ added, (growSurfaceArms t rs rg).surface = rg.surface ++ added) ∧
    (growSurfaceArms t rs rg).taproot = rg.taproot ∧
    (growSurfaceArms t rs rg).structural = rg.structural ∧
    (growSurfaceArms t rs rg).taprootDepth = rg.taprootDepth := by
  simp only [growSurfaceArms]
  split_ifs
  · exact ⟨⟨_, rfl⟩, rfl, rfl, rfl⟩
  · exact ⟨⟨[], by simp⟩, rfl, rfl, rfl⟩

theorem growTaproot_spec (t : Ticket) (rd : ℚ) (rg : RootGraph) :
    (growTaproot t rd rg).surface = rg.surface ∧
    (growTaproot t rd rg).structural = rg.structural ∧
    (min 4 (1 + ⌊rd / 22⌋) ≤ rg.taprootDepth →
      (growTaproot t rd rg).taproot = rg.taproot) := by
  simp only [growTaproot]
  split_ifs with hc
  · exact ⟨rfl, rfl, fun hle => absurd hc (not_lt.mpr hle)⟩
  · exact ⟨rfl, rfl, fun _ => rfl⟩

theorem growStructuralArms_spec (t : Ticket) (rs : ℚ) (rg : RootGraph) :
    (∃ added, (growStructuralArms t rs rg).structural = rg.structural ++ added) ∧
    (growStructuralArms t rs rg).surface = rg.surface ∧
    (growStructuralArms t rs rg).taproot = rg.taproot ∧
    (growStructuralArms t rs rg).taprootDepth = rg.taprootDepth := by
  simp only [growStructuralArms]
  split_ifs
  · exact ⟨⟨_, rfl⟩, rfl, rfl, rfl⟩
  · exact ⟨⟨[], by simp⟩, rfl, rfl, rfl⟩

/-- Claim C2 (amended): per `updateRootGraph` call, the surface and
structural collections are append-only and position-stable with monotone
bounded widths; the taproot collection is so only when the target depth
`min 4 (1 + floor(rootDepth/22))` does not exceed the stored `taprootDepth`
(a deeper target clears and rebuilds the whole taproot collection). -/
theorem spec_c2_amended (t : Ticket) (gs : GameState)
    (hs : 0 ≤ gs.plant.rootSpread) (hd : 0 ≤ gs.plant.rootDepth)
    (hst : 0 ≤ gs.plant.rootStructural) :
    segPreserved gs.plant.rootGraph.surface
      (updateRootGraph t gs).plant.rootGraph.surface ∧
    segPreserved gs.plant.rootGraph.structural
      (updateRootGraph t gs).plant.rootGraph.structural ∧
    (min 4 (1 + ⌊gs.plant.rootDepth / 22⌋) ≤ gs.plant.rootGraph.taprootDepth →
      segPreserved gs.plant.rootGraph.taproot
        (updateRootGraph t gs).plant.rootGraph.taproot) := by
  obtain ⟨⟨sAdd, hsAdd⟩, hTap1, hStr1, hDep1⟩ :=
    growSurfaceArms_spec t gs.plant.rootSpread gs.plant.rootGraph
  obtain ⟨hSur2, hStr2, hTap2⟩ := growTaproot_spec t gs.plant.rootDepth
    (growSurfaceArms t gs.plant.rootSpread gs.plant.rootGraph)
  obtain ⟨⟨tAdd, htAdd⟩, hSur3, hTap3, hDep3⟩ := growStructuralArms_spec t
    gs.plant.rootStructural
    (growTaproot t gs.plant.rootDepth
      (growSurfaceArms t gs.plant.rootSpread gs.plant.rootGraph))
  have hrg : (updateRootGraph t gs).plant.rootGraph
      = thickenAll gs.plant
        (growStructuralArms t gs.plant.rootStructural
          (growTaproot t gs.plant.rootDepth
            (growSurfaceArms t gs.plant.rootSpread gs.plant.rootGraph))) := rfl
  refine ⟨?_, ?_, ?_⟩
  · have hchain : (updateRootGraph t gs).plant.rootGraph.surface
        = (gs.plant.rootGraph.surface ++ sAdd).map
            (thickenSeg (0.012 + gs.plant.rootSpread / 3000)) := by
      rw [hrg]
      show (growStructuralArms t gs.plant.rootStructural
        (growTaproot t gs.plant.rootDepth
          (growSurfaceArms t gs.plant.rootSpread gs.plant.rootGraph))).surface.map
            (thickenSeg (0.012 + gs.plant.rootSpread / 3000))
        = _
      rw [hSur3, hSur2, hsAdd]
    rw [hchain]
    exact segPreserved_append_thicken _ _ _ (by positivity)
  · have hchain : (updateRootGraph t gs).plant.rootGraph.structural
        = (gs.plant.rootGraph.structural ++ tAdd).map
            (thickenSeg (0.020 + gs.plant.rootStructural / 2200)) := by
      rw [hrg]
      show (growStructuralArms t gs.plant.rootStructural
        (growTaproot t gs.plant.rootDepth
          (growSurfaceArms t gs.plant.rootSpread gs.plant.rootGraph))).structural.map
            (thickenSeg (0.020 + gs.plant.rootStructural / 2200))
        = _
      rw [htAdd, hStr2, hStr1]
    rw [hchain]
    exact segPreserved_append_thicken _ _ _ (by positivity)
  · intro hle
    have hle2 : min 4 (1 + ⌊gs.plant.rootDepth / 22⌋)
        ≤ (growSurfaceArms t gs.plant.rootSpread gs.plant.rootGraph).taprootDepth := by
      rw [hDep1]; exact hle
    have hchain : (updateRootGraph t gs).plant.rootGraph.taproot
        = (gs.plant.rootGraph.taproot ++ []).map
            (thickenSeg (0.018 + gs.plant.rootDepth / 2500)) := by
      rw [hrg]
      show (growStructuralArms t gs.plant.rootStructural
        (growTaproot t gs.plant.rootDepth
          (growSurfaceArms t gs.plant.rootSpread gs.plant.rootGraph))).taproot.map
            (thickenSeg (0.018 + gs.plant.rootDepth / 2500))
        = _
      rw [hTap3, hTap2 hle2, hTap1, List.append_nil]
    rw [hchain]
    exact segPreserved_append_thicken _ _ _ (by positivity)

/-- Claim C2 counterexample: at `c2State` (`rootDepth = 22` crossing the
second depth threshold, one stored taproot segment), the tick's root-graph
update discards the stored segment: no segment of the rebuilt taproot
collection keeps its geometry. -/
theorem spec_c2_counterexample :
    c2State.plant.rootGraph.taproot = [oldTapSeg] ∧
    ∀ s ∈ (updateRootGraph ticket0 c2State).plant.rootGraph.taproot,
      ¬ segSameGeom s oldTapSeg := by
  refine ⟨rfl, ?_⟩
  norm_num [updateRootGraph, growSurfaceArms, growTaproot, growStructuralArms,
    thickenAll, thickenSeg, c2State, baseState, createGameState, oak, plains, jsRound,
    lerp, buildRootSegments, recurseRoot, seededRand, ticket0, childAngleOf,
    rootColours, segSameGeom, oldTapSeg, List.range, List.range.loop]

/-- Witness for the amended C2 at the fresh oak state and the fixed oracle. -/
theorem spec_c2_amended_witness :
    (0 : ℚ) ≤ baseState.plant.rootSpread ∧ (0 : ℚ) ≤ baseState.plant.rootDepth ∧
    (0 : ℚ) ≤ baseState.plant.rootStructural ∧
    (segPreserved baseState.plant.rootGraph.surface
        (updateRootGraph ticket0 baseState).plant.rootGraph.surface ∧
     segPreserved baseState.plant.rootGraph.structural
        (updateRootGraph ticket0 baseState).plant.rootGraph.structural ∧
     (min 4 (1 + ⌊baseState.plant.rootDepth / 22⌋)
          ≤ baseState.plant.rootGraph.taprootDepth →
       segPreserved baseState.plant.rootGraph.taproot
         (updateRootGraph ticket0 baseState).plant.rootGraph.taproot)) := by
  have h1 : (0 : ℚ) ≤ baseState.plant.rootSpread := by
    norm_num [baseState, createGameState]
  have h2 : (0 : ℚ) ≤ baseState.plant.rootDepth := by
    norm_num [baseState, createGameState]
  have h3 : (0 : ℚ) ≤ baseState.plant.rootStructural := by
    norm_num [baseState, createGameState]
  exact ⟨h1, h2, h3, spec_c2_amended ticket0 baseState h1 h2 h3⟩

-- ── C1 ────────────────────────────────────────────────────

/-- Claim C1: a simulation tick preserves the range invariant: if every
resource pool and every plant growth-progress scalar lies in [0, 100]
before the tick, the same holds after it, for every settings combination
and every oracle. -/
theorem spec_c1_tick_preserves_ranges (t : Ticket) (gs : GameState)
    (h : InRange gs) : InRange (simulateTick t gs) :=
  inRange_weatherStage t _ (inRange_herbivoryStage t _ (inRange_mycorrhizaeStage _
    (inRange_cambiumStage _ (inRange_lifeCycleStage _ (inRange_floweringStage t _
      (inRange_updateHealth t _ (inRange_checkUnlocks _ (inRange_seedBaseNode t _
        (inRange_updateRootGraph t _ (inRange_applyGrowth _
          (inRange_computeResourceFlows t _ (inRange_hydraulicsStage _
            (inRange_stomataStage _ (inRange_updateEnvironment t _
              (inRange_tickHeader _ h)))))))))))))))

theorem inRange_baseState : InRange baseState := by
  norm_num [InRange, baseState, createGameState, oak, plains, jsRound, lerp]

/-- Witness for C1: the fresh oak state is in range, and so is the state
after one tick. -/
theorem spec_c1_tick_preserves_ranges_witness :
    InRange baseState ∧ InRange (simulateTick ticket0 baseState) :=
  ⟨inRange_baseState,
   spec_c1_tick_preserves_ranges ticket0 baseState inRange_baseState⟩

theorem clamp_nonpos (v : ℚ) (h : v ≤ 0) : clamp v 0 100 = 0 := by
  unfold clamp
  rw [min_eq_right (le_trans h (by norm_num)), max_eq_left h]

-- ── C3 ────────────────────────────────────────────────────

/-- Claim C3 (amended): the photosynthesis energy gain applied by the flow
engine equals the spec's formula times 3.5 (the code multiplies an extra
flat factor 3.5 the formula omits), and the flow engine adds exactly this
gain to energy, together with the seed trickle, minus respiration and the
flat action cost, clamped to [0, 100]. -/
theorem spec_c3_amended (t : Ticket) (gs : GameState) :
    photoRateEffOf t gs = specPhotoGain t gs * 3.5 ∧
    (computeResourceFlows t gs).energy
      = clamp (gs.energy + photoRateEffOf t gs + seedEnergyOf gs
          - respireCostOf gs * respireModOf gs - (growCostsOf gs.activeAction).energy)
          0 RESOURCE_MAX := by
  constructor
  · simp only [photoRateEffOf, photoRateOf, specPhotoGain, photoTempF]
    ring
  · rfl

/-- Claim C3 counterexample: in the claim's own scenario (leafEfficiency 1,
sunlight 0.8, leaves action, leafMass 10, temperature factor disabled), the
gain the flow engine applies differs from the spec formula (it is 3.5 times
larger), while the spec formula value is nonzero and the tick's energy
change is exactly gain - 0.4 respiration - 2.0 action cost. -/
theorem spec_c3_counterexample :
    photoRateEffOf ticket0 c3State ≠ specPhotoGain ticket0 c3State ∧
    specPhotoGain ticket0 c3State ≠ 0 ∧
    (computeResourceFlows ticket0 c3State).energy
      = c3State.energy + photoRateEffOf ticket0 c3State - 0.4 - 2 := by
  refine ⟨?_, ?_, ?_⟩
  · norm_num [photoRateEffOf, photoRateOf, photoTempF, specPhotoGain, tempFactor,
      clamp, ticket0, c3State, c3Seed, noTempSettings, oak, plains, DEFAULT_SETTINGS,
      createGameState, jsRound, lerp, min_def, max_def]
  · norm_num [specPhotoGain, tempFactor, clamp, ticket0, c3State, c3Seed,
      noTempSettings, oak, plains, DEFAULT_SETTINGS, createGameState, jsRound, lerp,
      min_def, max_def]
  · norm_num [computeResourceFlows, photoRateEffOf, photoRateOf, photoTempF,
      tempFactor, seedEnergyOf, respireCostOf, respireModOf, growCostsOf, clamp,
      RESOURCE_MAX, ticket0, c3State, c3Seed, noTempSettings, oak, plains,
      DEFAULT_SETTINGS, createGameState, jsRound, lerp, min_def, max_def]

-- ── C4 ────────────────────────────────────────────────────

/-- Claim C4: committing a placement whose candidate parent id matches no
node is a silent no-op: the returned state is the input state, unchanged in
every field. -/
theorem spec_c4_missing_parent (gs : GameState) (c : Candidate) (ty : NodeType)
    (h : ∀ n ∈ gs.plant.nodes, n.id ≠ c.parentNodeId) :
    commitPlacement gs c ty = gs := by
  have hf : gs.plant.nodes.find? (fun n => n.id = c.parentNodeId) = none := by
    rw [List.find?_eq_none]
    intro x hx
    simpa using h x hx
  unfold commitPlacement
  rw [hf]

/-- Witness for C4: the one-node state and a candidate with parent id 7. -/
theorem spec_c4_missing_parent_witness :
    (∀ n ∈ oneNodeState.plant.nodes, n.id ≠ danglingCand.parentNodeId) ∧
    commitPlacement oneNodeState danglingCand .trunk = oneNodeState := by
  have hpf : ∀ n ∈ oneNodeState.plant.nodes, n.id ≠ danglingCand.parentNodeId := by
    intro n hn
    have hl : oneNodeState.plant.nodes = [node0] := rfl
    rw [hl] at hn
    simp only [List.mem_singleton] at hn
    subst hn
    decide
  exact ⟨hpf, spec_c4_missing_parent oneNodeState danglingCand .trunk hpf⟩

-- ── C6 ────────────────────────────────────────────────────

/-- Claim C6: when an action is selected but energy < 5, water < 3 or the
plant is dormant, the growth allocator is the identity (no growth scalar
changes), while the flow engine still charges the flat per-tick action
costs: 2.0 energy, 1.5 water for roots (0.8 otherwise), and nutrients
1.2 (trunk) / 1.0 (branches) / 0.6 (roots, leaves) split 0.5/0.3/0.2 over
N/P/K. -/
theorem spec_c6_gated_growth (t : Ticket) (gs : GameState) (act : Action)
    (ha : gs.activeAction = some act)
    (hgate : gs.energy < 5 ∨ gs.water < 3 ∨ gs.dormant = true) :
    applyGrowth gs = gs ∧
    (computeResourceFlows t gs).energy
      = clamp (gs.energy + photoRateEffOf t gs + seedEnergyOf gs
          - respireCostOf gs * respireModOf gs - 2.0) 0 RESOURCE_MAX ∧
    (computeResourceFlows t gs).water
      = clamp (gs.water + waterInOf gs - transpireEffOf gs
          - (if act = .roots then 1.5 else 0.8)) 0 RESOURCE_MAX ∧
    (computeResourceFlows t gs).nitrogen
      = clamp (gs.nitrogen + nInOf gs
          - (if act = .trunk then 1.2 else if act = .branches then 1.0 else 0.6) * 0.5)
          0 RESOURCE_MAX ∧
    (computeResourceFlows t gs).phosphorus
      = clamp (gs.phosphorus + pInOf gs
          - (if act = .trunk then 1.2 else if act = .branches then 1.0 else 0.6) * 0.3)
          0 RESOURCE_MAX ∧
    (computeResourceFlows t gs).potassium
      = clamp (gs.potassium + kInOf gs
          - (if act = .trunk then 1.2 else if act = .branches then 1.0 else 0.6) * 0.2)
          0 RESOURCE_MAX := by
  constructor
  · simp only [applyGrowth, ha]
    by_cases h1 : gs.energy < 5 ∨ gs.water < 3
    · rw [if_pos h1]
    · rw [if_neg h1]
      rcases hgate with h | h | h
      · exact absurd (Or.inl h) h1
      · exact absurd (Or.inr h) h1
      · rw [if_pos h]
  · simp only [computeResourceFlows, growCostsOf, ha]
    exact ⟨trivial, trivial, trivial, trivial, trivial⟩

/-- Witness for C6: the roots action selected at energy 1 < 5. -/
theorem spec_c6_gated_growth_witness :
    lowEnergyState.activeAction = some .roots ∧
    (lowEnergyState.energy < 5 ∨ lowEnergyState.water < 3 ∨
      lowEnergyState.dormant = true) ∧
    (applyGrowth lowEnergyState = lowEnergyState ∧
     (computeResourceFlows ticket0 lowEnergyState).energy
       = clamp (lowEnergyState.energy + photoRateEffOf ticket0 lowEnergyState
           + seedEnergyOf lowEnergyState
           - respireCostOf lowEnergyState * respireModOf lowEnergyState - 2.0)
           0 RESOURCE_MAX ∧
     (computeResourceFlows ticket0 lowEnergyState).water
       = clamp (lowEnergyState.water + waterInOf lowEnergyState
           - transpireEffOf lowEnergyState
           - (if Action.roots = .roots then 1.5 else 0.8)) 0 RESOURCE_MAX ∧
     (computeResourceFlows ticket0 lowEnergyState).nitrogen
       = clamp (lowEnergyState.nitrogen + nInOf lowEnergyState
           - (if Action.roots = .trunk then 1.2
              else if Action.roots = .branches then 1.0 else 0.6) * 0.5)
           0 RESOURCE_MAX ∧
     (computeResourceFlows ticket0 lowEnergyState).phosphorus
       = clamp (lowEnergyState.phosphorus + pInOf lowEnergyState
           - (if Action.roots = .trunk then 1.2
              else if Action.roots = .branches then 1.0 else 0.6) * 0.3)
           0 RESOURCE_MAX ∧
     (computeResourceFlows ticket0 lowEnergyState).potassium
       = clamp (lowEnergyState.potassium + kInOf lowEnergyState
           - (if Action.roots = .trunk then 1.2
              else if Action.roots = .branches then 1.0 else 0.6) * 0.2)
           0 RESOURCE_MAX) := by
  have hlt : lowEnergyState.energy < 5 := by norm_num [lowEnergyState]
  exact ⟨rfl, Or.inl hlt,
    spec_c6_gated_growth ticket0 lowEnergyState .roots rfl (Or.inl hlt)⟩

-- ── C7 ────────────────────────────────────────────────────

/-- Claim C7 (amended): with hydraulicFailure enabled, on a tick that is a
multiple of 5 with tension above the threshold, xylem integrity is set to
`clamp (old - (tension - threshold) * 0.008) 0.05 1.0`, but the cavitation
event counter is incremented only when the damage exceeds 0.002 (it is
unchanged otherwise). -/
theorem spec_c7_amended (gs : GameState)
    (hset : gs.settings.hydraulicFailure = true)
    (h5 : gs.tick % 5 = 0)
    (ht : gs.seed.cavitationResistance < hydroTension gs)
    (hpos : 0 < gs.seed.cavitationResistance) :
    (hydraulicsStage gs).xylemIntegrity
      = clamp (gs.xylemIntegrity
          - (hydroTension gs - gs.seed.cavitationResistance) * 0.008) 0.05 1.0 ∧
    (hydraulicsStage gs).cavitationEvents
      = (if 0.002 < (hydroTension gs - gs.seed.cavitationResistance) * 0.008
         then gs.cavitationEvents + 1 else gs.cavitationEvents) := by
  have htension : 0 < hydroTension gs := lt_trans hpos ht
  have hw : gs.water < 30 := by
    by_contra hw30
    push_neg at hw30
    have hdef : waterDeficitOf gs = 0 := by
      have h1 : (30 - gs.water) / 30 ≤ 0 :=
        div_nonpos_iff.mpr (Or.inr ⟨by linarith, by norm_num⟩)
      unfold waterDeficitOf
      exact max_eq_left h1
    have hzero : hydroTension gs = 0 := by
      unfold hydroTension
      rw [hdef, mul_zero]
    linarith
  have hstage : hydraulicsStage gs = updateHydraulics gs := by
    simp only [hydraulicsStage]
    rw [if_pos hset]
  have hx1 : (cavitationStep gs).water = gs.water := by
    simp only [cavitationStep]
    rw [if_pos (⟨ht, h5⟩ : _ ∧ _)]
    split_ifs <;> rfl
  have hcc : updateHydraulics gs = cavitationStep gs := by
    show xylemRecoveryStep (cavitationStep gs) = _
    simp only [xylemRecoveryStep]
    rw [if_neg]
    rintro ⟨-, hw50, -⟩
    rw [hx1] at hw50
    linarith
  rw [hstage, hcc]
  simp only [cavitationStep]
  rw [if_pos (⟨ht, h5⟩ : _ ∧ _)]
  split_ifs <;> exact ⟨rfl, rfl⟩

/-- Claim C7 counterexample: at `c7State` the tension 7/15 exceeds the oak
threshold 0.45 on tick 0 (a multiple of 5), yet the cavitation counter is
not incremented, because the damage 2/15000 is below 0.002. -/
theorem spec_c7_counterexample :
    c7State.settings.hydraulicFailure = true ∧
    c7State.tick % 5 = 0 ∧
    c7State.seed.cavitationResistance < hydroTension c7State ∧
    (hydraulicsStage c7State).cavitationEvents = c7State.cavitationEvents ∧
    (hydraulicsStage c7State).cavitationEvents ≠ c7State.cavitationEvents + 1 := by
  have heq : (hydraulicsStage c7State).cavitationEvents
      = c7State.cavitationEvents := by
    norm_num [hydraulicsStage, updateHydraulics, cavitationStep, xylemRecoveryStep,
      hydroTension, transpireDemandOf, waterDeficitOf, clamp, addLog, c7State,
      baseState, createGameState, oak, plains, DEFAULT_SETTINGS, jsRound, lerp,
      min_def, max_def]
  refine ⟨rfl, rfl, ?_, heq, by rw [heq]; omega⟩
  norm_num [hydroTension, transpireDemandOf, waterDeficitOf, c7State, baseState,
    createGameState, oak, plains, jsRound, lerp, max_def]

/-- Witness for the amended C7: full drought (water 0, tension 1), damage
0.0044 > 0.002, so the counter increments and integrity drops. -/
theorem spec_c7_amended_witness :
    c7WitState.settings.hydraulicFailure = true ∧
    c7WitState.tick % 5 = 0 ∧
    c7WitState.seed.cavitationResistance < hydroTension c7WitState ∧
    0 < c7WitState.seed.cavitationResistance ∧
    0.002 < (hydroTension c7WitState - c7WitState.seed.cavitationResistance) * 0.008 ∧
    ((hydraulicsStage c7WitState).xylemIntegrity
      = clamp (c7WitState.xylemIntegrity
          - (hydroTension c7WitState - c7WitState.seed.cavitationResistance) * 0.008)
          0.05 1.0 ∧
     (hydraulicsStage c7WitState).cavitationEvents
      = (if 0.002 < (hydroTension c7WitState - c7WitState.seed.cavitationResistance)
            * 0.008
         then c7WitState.cavitationEvents + 1 else c7WitState.cavitationEvents)) := by
  have ht : c7WitState.seed.cavitationResistance < hydroTension c7WitState := by
    norm_num [hydroTension, transpireDemandOf, waterDeficitOf, c7WitState, baseState,
      createGameState, oak, plains, jsRound, lerp, max_def]
  have hpos : (0 : ℚ) < c7WitState.seed.cavitationResistance := by
    norm_num [c7WitState, baseState, createGameState, oak]
  refine ⟨rfl, rfl, ht, hpos, ?_, spec_c7_amended c7WitState rfl rfl ht hpos⟩
  norm_num [hydroTension, transpireDemandOf, waterDeficitOf, c7WitState, baseState,
    createGameState, oak, plains, jsRound, lerp, max_def]

theorem addChildToFirst_length (l : List PlantNode) (pid cid : ℕ) :
    (addChildToFirst l pid cid).length = l.length := by
  induction l with
  | nil => rfl
  | cons n rest ih =>
    simp only [addChildToFirst]
    split_ifs <;> simp [List.length_cons, ih]

theorem find?_append_left {p : PlantNode → Bool} {l1 : List PlantNode}
    (l2 : List PlantNode) {x : PlantNode} (h : l1.find? p = some x) :
    (l1 ++ l2).find? p = some x := by
  induction l1 with
  | nil => simp [List.find?] at h
  | cons a as ih =>
    rw [List.cons_append]
    cases hpa : p a with
    | false =>
      simp only [List.find?, hpa] at h ⊢
      exact ih h
    | true =>
      simp only [List.find?, hpa] at h ⊢
      exact h

theorem addChildToFirst_find? (l : List PlantNode) (pid cid : ℕ) (x : PlantNode)
    (h : l.find? (fun n => n.id = pid) = some x) :
    (addChildToFirst l pid cid).find? (fun n => n.id = pid)
      = some { x with children := x.children ++ [cid] } := by
  induction l with
  | nil => simp [List.find?] at h
  | cons a rest ih =>
    by_cases ha : a.id = pid
    · have hxa : a = x := by
        simp only [List.find?, show decide (a.id = pid) = true from decide_eq_true ha]
          at h
        exact Option.some.inj h
      simp only [addChildToFirst, if_pos ha]
      simp only [List.find?,
        show decide (({ a with children := a.children ++ [cid] } : PlantNode).id = pid)
            = true from decide_eq_true ha]
      rw [hxa]
    · have hfa : decide (a.id = pid) = false := decide_eq_false ha
      simp only [addChildToFirst, if_neg ha]
      simp only [List.find?, hfa] at h ⊢
      exact ih h

theorem getLast?_concatNode (l : List PlantNode) (n : PlantNode) :
    (l ++ [n]).getLast? = some n := by
  simp

-- ── C5 ────────────────────────────────────────────────────

/-- Claim C5: committing a placement whose candidate parent exists appends
exactly one node of the given type as a child of that parent (its id is
recorded in the parent's child list and it carries `parentId`), increments
`nextNodeId`, applies the fixed trunk cost 12/6P/4N/6W and bumps
trunkHeight +8 / trunkGirth +3 (or the leaf cost 8/5W/3N/1K with
leafMass +6 / branchLength +4), each clamped to [0, 100], and resets the
placement sub-state. -/
theorem spec_c5_commit_effects (gs : GameState) (c : Candidate) (ty : NodeType)
    (p : PlantNode)
    (hp : gs.plant.nodes.find? (fun n => n.id = c.parentNodeId) = some p) :
    (commitPlacement gs c ty).plant.nodes.length = gs.plant.nodes.length + 1 ∧
    (commitPlacement gs c ty).plant.nodes.getLast? = some (newNodeOf gs c ty p.id) ∧
    (newNodeOf gs c ty p.id).type = ty ∧
    (newNodeOf gs c ty p.id).parentId = some p.id ∧
    (commitPlacement gs c ty).plant.nodes.find? (fun n => n.id = c.parentNodeId)
      = some { p with children := p.children ++ [gs.plant.nextNodeId] } ∧
    (commitPlacement gs c ty).plant.nextNodeId = gs.plant.nextNodeId + 1 ∧
    (ty = .trunk →
      (commitPlacement gs c ty).plant.trunkHeight
        = clamp (gs.plant.trunkHeight + 8) 0 100 ∧
      (commitPlacement gs c ty).plant.trunkGirth
        = clamp (gs.plant.trunkGirth + 3) 0 100 ∧
      (commitPlacement gs c ty).energy = clamp (gs.energy - 12) 0 100 ∧
      (commitPlacement gs c ty).phosphorus = clamp (gs.phosphorus - 6) 0 100 ∧
      (commitPlacement gs c ty).nitrogen = clamp (gs.nitrogen - 4) 0 100 ∧
      (commitPlacement gs c ty).water = clamp (gs.water - 6) 0 100) ∧
    (ty = .leaf →
      (commitPlacement gs c ty).plant.leafMass
        = clamp (gs.plant.leafMass + 6) 0 100 ∧
      (commitPlacement gs c ty).plant.branchLength
        = clamp (gs.plant.branchLength + 4) 0 100 ∧
      (commitPlacement gs c ty).energy = clamp (gs.energy - 8) 0 100 ∧
      (commitPlacement gs c ty).water = clamp (gs.water - 5) 0 100 ∧
      (commitPlacement gs c ty).nitrogen = clamp (gs.nitrogen - 3) 0 100 ∧
      (commitPlacement gs c ty).potassium = clamp (gs.potassium - 1) 0 100) ∧
    (commitPlacement gs c ty).placement
      = { mode := none, candidates := [], hoveredId := none } := by
  have hpid : p.id = c.parentNodeId := by
    simpa using List.find?_some hp
  have hp2 : gs.plant.nodes.find? (fun n => n.id = p.id) = some p := by
    rw [hpid]
    exact hp
  unfold commitPlacement
  rw [hp]
  rw [← hpid]
  cases ty with
  | trunk =>
    refine ⟨?_, ?_, rfl, rfl, ?_, rfl, fun _ => ⟨rfl, rfl, rfl, rfl, rfl, rfl⟩,
      fun hh => absurd hh (by decide), rfl⟩
    · show (addChildToFirst gs.plant.nodes p.id gs.plant.nextNodeId
          ++ [newNodeOf gs c .trunk p.id]).length = gs.plant.nodes.length + 1
      rw [List.length_append, addChildToFirst_length]
      rfl
    · show (addChildToFirst gs.plant.nodes p.id gs.plant.nextNodeId
          ++ [newNodeOf gs c .trunk p.id]).getLast? = some (newNodeOf gs c .trunk p.id)
      exact getLast?_concatNode _ _
    · show (addChildToFirst gs.plant.nodes p.id gs.plant.nextNodeId
          ++ [newNodeOf gs c .trunk p.id]).find? (fun n => n.id = p.id)
          = some { p with children := p.children ++ [gs.plant.nextNodeId] }
      exact find?_append_left _ (addChildToFirst_find? _ _ _ _ hp2)
  | leaf =>
    refine ⟨?_, ?_, rfl, rfl, ?_, rfl, fun hh => absurd hh (by decide),
      fun _ => ⟨rfl, rfl, rfl, rfl, rfl, rfl⟩, rfl⟩
    · show (addChildToFirst gs.plant.nodes p.id gs.plant.nextNodeId
          ++ [newNodeOf gs c .leaf p.id]).length = gs.plant.nodes.length + 1
      rw [List.length_append, addChildToFirst_length]
      rfl
    · show (addChildToFirst gs.plant.nodes p.id gs.plant.nextNodeId
          ++ [newNodeOf gs c .leaf p.id]).getLast? = some (newNodeOf gs c .leaf p.id)
      exact getLast?_concatNode _ _
    · show (addChildToFirst gs.plant.nodes p.id gs.plant.nextNodeId
          ++ [newNodeOf gs c .leaf p.id]).find? (fun n => n.id = p.id)
          = some { p with children := p.children ++ [gs.plant.nextNodeId] }
      exact find?_append_left _ (addChildToFirst_find? _ _ _ _ hp2)

/-- Witness for C5: a trunk commit on the one-node state. -/
theorem spec_c5_commit_effects_witness :
    oneNodeState.plant.nodes.find? (fun n => n.id = trunkCand.parentNodeId)
      = some node0 ∧
    ((commitPlacement oneNodeState trunkCand .trunk).plant.nodes.length
        = oneNodeState.plant.nodes.length + 1 ∧
     (commitPlacement oneNodeState trunkCand .trunk).plant.nodes.getLast?
        = some (newNodeOf oneNodeState trunkCand .trunk node0.id) ∧
     (newNodeOf oneNodeState trunkCand .trunk node0.id).type = .trunk ∧
     (newNodeOf oneNodeState trunkCand .trunk node0.id).parentId = some node0.id ∧
     (commitPlacement oneNodeState trunkCand .trunk).plant.nodes.find?
        (fun n => n.id = trunkCand.parentNodeId)
        = some { node0 with
            children := node0.children ++ [oneNodeState.plant.nextNodeId] } ∧
     (commitPlacement oneNodeState trunkCand .trunk).plant.nextNodeId
        = oneNodeState.plant.nextNodeId + 1 ∧
     (NodeType.trunk = .trunk →
       (commitPlacement oneNodeState trunkCand .trunk).plant.trunkHeight
          = clamp (oneNodeState.plant.trunkHeight + 8) 0 100 ∧
       (commitPlacement oneNodeState trunkCand .trunk).plant.trunkGirth
          = clamp (oneNodeState.plant.trunkGirth + 3) 0 100 ∧
       (commitPlacement oneNodeState trunkCand .trunk).energy
          = clamp (oneNodeState.energy - 12) 0 100 ∧
       (commitPlacement oneNodeState trunkCand .trunk).phosphorus
          = clamp (oneNodeState.phosphorus - 6) 0 100 ∧
       (commitPlacement oneNodeState trunkCand .trunk).nitrogen
          = clamp (oneNodeState.nitrogen - 4) 0 100 ∧
       (commitPlacement oneNodeState trunkCand .trunk).water
          = clamp (oneNodeState.water - 6) 0 100) ∧
     (NodeType.trunk = .leaf →
       (commitPlacement oneNodeState trunkCand .trunk).plant.leafMass
          = clamp (oneNodeState.plant.leafMass + 6) 0 100 ∧
       (commitPlacement oneNodeState trunkCand .trunk).plant.branchLength
          = clamp (oneNodeState.plant.branchLength + 4) 0 100 ∧
       (commitPlacement oneNodeState trunkCand .trunk).energy
          = clamp (oneNodeState.energy - 8) 0 100 ∧
       (commitPlacement oneNodeState trunkCand .trunk).water
          = clamp (oneNodeState.water - 5) 0 100 ∧
       (commitPlacement oneNodeState trunkCand .trunk).nitrogen
          = clamp (oneNodeState.nitrogen - 3) 0 100 ∧
       (commitPlacement oneNodeState trunkCand .trunk).potassium
          = clamp (oneNodeState.potassium - 1) 0 100) ∧
     (commitPlacement oneNodeState trunkCand .trunk).placement
        = { mode := none, candidates := [], hoveredId := none }) := by
  have hp : oneNodeState.plant.nodes.find? (fun n => n.id = trunkCand.parentNodeId)
      = some node0 := rfl
  exact ⟨hp, spec_c5_commit_effects oneNodeState trunkCand .trunk node0 hp⟩

-- ── C9 ────────────────────────────────────────────────────

/-- Claim C9 (implicit): `commitPlacement` has no resource-availability
precondition: with a resolvable parent the node is appended, `nextNodeId`
is incremented and the scalars are bumped even when every pool is below the
nominal trunk cost; each deduction clamps at 0, so the pools end at 0 and
the operation never fails or rolls back. -/
theorem spec_c9_no_resource_gate (gs : GameState) (c : Candidate) (p : PlantNode)
    (hp : gs.plant.nodes.find? (fun n => n.id = c.parentNodeId) = some p)
    (hE : gs.energy < 12) (hP : gs.phosphorus < 6)
    (hN : gs.nitrogen < 4) (hW : gs.water < 6) :
    (commitPlacement gs c .trunk).plant.nodes.length
      = gs.plant.nodes.length + 1 ∧
    (commitPlacement gs c .trunk).plant.nextNodeId = gs.plant.nextNodeId + 1 ∧
    (commitPlacement gs c .trunk).plant.trunkHeight
      = clamp (gs.plant.trunkHeight + 8) 0 100 ∧
    (commitPlacement gs c .trunk).plant.trunkGirth
      = clamp (gs.plant.trunkGirth + 3) 0 100 ∧
    (commitPlacement gs c .trunk).energy = 0 ∧
    (commitPlacement gs c .trunk).phosphorus = 0 ∧
    (commitPlacement gs c .trunk).nitrogen = 0 ∧
    (commitPlacement gs c .trunk).water = 0 := by
  unfold commitPlacement
  rw [hp]
  refine ⟨?_, rfl, rfl, rfl, ?_, ?_, ?_, ?_⟩
  · show (addChildToFirst gs.plant.nodes p.id gs.plant.nextNodeId
        ++ [newNodeOf gs c .trunk p.id]).length = gs.plant.nodes.length + 1
    rw [List.length_append, addChildToFirst_length]
    rfl
  · exact clamp_nonpos _ (by linarith)
  · exact clamp_nonpos _ (by linarith)
  · exact clamp_nonpos _ (by linarith)
  · exact clamp_nonpos _ (by linarith)

/-- Witness for C9: the resource-poor one-node state (5 energy, 2 P, 1 N,
3 water, all below the 12/6/4/6 trunk cost). -/
theorem spec_c9_no_resource_gate_witness :
    poorState.plant.nodes.find? (fun n => n.id = trunkCand.parentNodeId)
      = some node0 ∧
    poorState.energy < 12 ∧ poorState.phosphorus < 6 ∧ poorState.nitrogen < 4 ∧
    poorState.water < 6 ∧
    ((commitPlacement poorState trunkCand .trunk).plant.nodes.length
        = poorState.plant.nodes.length + 1 ∧
     (commitPlacement poorState trunkCand .trunk).plant.nextNodeId
        = poorState.plant.nextNodeId + 1 ∧
     (commitPlacement poorState trunkCand .trunk).plant.trunkHeight
        = clamp (poorState.plant.trunkHeight + 8) 0 100 ∧
     (commitPlacement poorState trunkCand .trunk).plant.trunkGirth
        = clamp (poorState.plant.trunkGirth + 3) 0 100 ∧
     (commitPlacement poorState trunkCand .trunk).energy = 0 ∧
     (commitPlacement poorState trunkCand .trunk).phosphorus = 0 ∧
     (commitPlacement poorState trunkCand .trunk).nitrogen = 0 ∧
     (commitPlacement poorState trunkCand .trunk).water = 0) := by
  have hp : poorState.plant.nodes.find? (fun n => n.id = trunkCand.parentNodeId)
      = some node0 := rfl
  have hE : poorState.energy < 12 := by norm_num [poorState]
  have hP : poorState.phosphorus < 6 := by norm_num [poorState]
  have hN : poorState.nitrogen < 4 := by norm_num [poorState]
  have hW : poorState.water < 6 := by norm_num [poorState]
  exact ⟨hp, hE, hP, hN, hW,
    spec_c9_no_resource_gate poorState trunkCand node0 hp hE hP hN hW⟩
end PlantLife
